import Mathlib

/-!
Verification of the policy rule transformation and validation engine of the
cdp-sdk repository: a shallow embedding of `cdp/policies/types.py`,
`cdp/policies/request_transformer.py` and
`cdp/policies/response_transformer.py`, together with theorems settling the
claims about validation, dispatch failures, fail-fast behaviour and the
round-trip property between the user-facing rule format and the wire format.
-/

set_option maxRecDepth 10000

/-! ## Character classes and string predicates used by the validators -/

/-- ASCII hexadecimal digit: the character class `[0-9a-fA-F]` of the EVM
address regular expression in `types.py`. -/
def isAsciiHexDigit (c : Char) : Bool :=
  (('0' ≤ c) && (c ≤ '9')) || (('a' ≤ c) && (c ≤ 'f')) || (('A' ≤ c) && (c ≤ 'F'))

/-- The character list `0x` followed by exactly 40 hexadecimal digits: one
full match of `0x[0-9a-fA-F]{40}` covering the whole list. -/
def evmAddressChars : List Char → Bool
  | '0' :: 'x' :: rest => rest.length == 40 && rest.all isAsciiHexDigit
  | _ => false

/-- Python's `re.match(r"^0x[0-9a-fA-F]{40}$", addr)` (truthiness), as used by
`validate_addresses_format` in `types.py`.  In Python's `re`, `$` (without
`re.MULTILINE`) matches at the end of the string or just before a single
trailing newline, so a string consisting of a full match plus a final `\n`
also matches. -/
def matchesEvmAddressRegex (s : String) : Bool :=
  evmAddressChars s.data ||
    (match s.data.getLast? with
     | some c => c == '\n' && evmAddressChars s.data.dropLast
     | none => false)

/-- Base58 alphabet character: the class `[1-9A-HJ-NP-Za-km-z]` of the Solana
address regular expression in `types.py`. -/
def isBase58Char (c : Char) : Bool :=
  (('1' ≤ c) && (c ≤ '9')) || (('A' ≤ c) && (c ≤ 'H')) || (('J' ≤ c) && (c ≤ 'N')) ||
  (('P' ≤ c) && (c ≤ 'Z')) || (('a' ≤ c) && (c ≤ 'k')) || (('m' ≤ c) && (c ≤ 'z'))

/-- A full match of `[1-9A-HJ-NP-Za-km-z]{32,44}` covering the whole list. -/
def solAddressChars (l : List Char) : Bool :=
  (32 ≤ l.length && l.length ≤ 44) && l.all isBase58Char

/-- Python's `sol_address_regex.match(address)` for the pattern
`^[1-9A-HJ-NP-Za-km-z]{32,44}$` in `SolanaAddressCriterion.validate_address_format`,
with the same trailing-newline behaviour of `$` as `matchesEvmAddressRegex`. -/
def matchesSolAddressRegex (s : String) : Bool :=
  solAddressChars s.data ||
    (match s.data.getLast? with
     | some c => c == '\n' && solAddressChars s.data.dropLast
     | none => false)

/-- A character Python's `str.isdigit` counts as a digit.  Python consults the
Unicode character database (category `Nd` plus characters with the digit
numeric property); we model the classes relevant to this development: the
ASCII digits, the Arabic-Indic and extended Arabic-Indic digits, the
Devanagari digits, the superscript digits `¹ ² ³` (U+00B9, U+00B2, U+00B3)
and `⁰ ⁴`–`⁹` (U+2070, U+2074–U+2079), the subscript digits (U+2080–U+2089)
and the fullwidth digits (U+FF10–U+FF19).  Every character outside these
ranges is treated as a non-digit. -/
def pyCharIsDigit (c : Char) : Bool :=
  (('0' ≤ c) && (c ≤ '9')) ||
  ((0x660 ≤ c.toNat) && (c.toNat ≤ 0x669)) ||
  ((0x6F0 ≤ c.toNat) && (c.toNat ≤ 0x6F9)) ||
  ((0x966 ≤ c.toNat) && (c.toNat ≤ 0x96F)) ||
  (c.toNat == 0xB9) || (c.toNat == 0xB2) || (c.toNat == 0xB3) ||
  (c.toNat == 0x2070) || ((0x2074 ≤ c.toNat) && (c.toNat ≤ 0x2079)) ||
  ((0x2080 ≤ c.toNat) && (c.toNat ≤ 0x2089)) ||
  ((0xFF10 ≤ c.toNat) && (c.toNat ≤ 0xFF19))

/-- Python's `str.isdigit`: true exactly when the string is non-empty and
every character is a digit character. -/
def pyIsdigit (s : String) : Bool :=
  !s.data.isEmpty && s.data.all pyCharIsDigit

/-! ## Operator and enum value sets (the `Literal` types of `types.py`) -/

/-- The `Action` literal: `{"reject", "accept"}`. -/
def validAction (a : String) : Bool :=
  a == "reject" || a == "accept"

/-- `EthValueCriterion.operator`: `Literal[">", "<", ">=", "<=", "==", "!="]`. -/
def comparisonOperatorsEth : List String := [">", "<", ">=", "<=", "==", "!="]

/-- The ordered-comparison operator set of `EvmDataParameterCondition`
(`{">", ">=", "<", "<=", "=="}`) and `EvmTypedNumericalCondition`
(`Literal[">", "<", ">=", "<=", "=="]`, the same set). -/
def comparisonOperatorsOrdered : List String := [">", ">=", "<", "<=", "=="]

/-- The membership operator set `{"in", "not in"}`. -/
def membershipOperators : List String := ["in", "not in"]

/-- `EvmNetworkCriterion.networks` element literal:
`Literal["base-sepolia", "base"]`. -/
def allowedNetworks : List String := ["base-sepolia", "base"]

/-! ## The ABI payload

`EvmDataCriterion.abi` is typed `KnownAbiType | AbiInner`.  Both classes live
in `cdp/openapi_client/models` and are not under `src/`; the transformers
treat the payload opaquely (the request transformer re-wraps a known tag with
`KnownAbiType(c.abi)`, the identity on valid enum members). -/

/-- Modelled from the spec: the known-ABI tag enum (`KnownAbiType`,
`cdp/openapi_client/models/known_abi_type.py`, not under `src/`); the spec
describes the `abi` field as "known-type tag or explicit ABI fragment".  The
transformers only re-wrap the tag, so the exact constructor set is
immaterial. -/
inductive KnownAbiType where
  | erc20
  | erc721
  | erc1155
deriving DecidableEq

/-- Modelled from the spec: an explicit ABI fragment (`AbiInner`,
`cdp/openapi_client/models/abi_inner.py`, not under `src/`).  The spec treats
blockchain-specific ABI encoding "as an opaque byte payload", and the
transformers pass it through untouched, so we model it as an opaque list of
items. -/
structure AbiInner where
  items : List String
deriving DecidableEq

/-- The `KnownAbiType | AbiInner` union of `EvmDataCriterion.abi`. -/
inductive Abi where
  | known (tag : KnownAbiType)
  | fragment (inner : AbiInner)
deriving DecidableEq

/-! ## User-facing criterion model (`cdp/policies/types.py`)

Each pydantic model becomes a structure of its raw fields; the eager
construction-time validation of `types.py` (field `Literal` types and
`field_validator`s) is modelled by the `mk*` smart constructors below, which
run the same checks in pydantic's field order and either return the
constructed value or fail. -/

/-- `EthValueCriterion`: fields `ethValue` and `operator` (the `type` tag is
the constant `"ethValue"`). -/
structure EthValueCriterion where
  ethValue : String
  operator : String
deriving DecidableEq

/-- `EvmAddressCriterion`: fields `addresses` and `operator`. -/
structure EvmAddressCriterion where
  addresses : List String
  operator : String
deriving DecidableEq

/-- `EvmNetworkCriterion`: fields `networks` and `operator`. -/
structure EvmNetworkCriterion where
  networks : List String
  operator : String
deriving DecidableEq

/-- `EvmDataParameterCondition`: fields `name`, `operator`, `value`. -/
structure EvmDataParameterCondition where
  name : String
  operator : String
  value : String
deriving DecidableEq

/-- `EvmDataParameterConditionList`: fields `name`, `operator`, `values`. -/
structure EvmDataParameterConditionList where
  name : String
  operator : String
  values : List String
deriving DecidableEq

/-- The union `EvmDataParameterCondition | EvmDataParameterConditionList`
appearing in `EvmDataCondition.params`.  The transformers tell the two apart
by `hasattr(param, "values")`; on this sum the `condList` constructor is
exactly the variant carrying `values`. -/
inductive ParamCondition where
  | cond (c : EvmDataParameterCondition)
  | condList (c : EvmDataParameterConditionList)
deriving DecidableEq

/-- `EvmDataCondition`: fields `function` and the optional `params` list
(default `None`). -/
structure EvmDataCondition where
  function : String
  params : Option (List ParamCondition)
deriving DecidableEq

/-- `EvmDataCriterion`: fields `abi` and `conditions`. -/
structure EvmDataCriterion where
  abi : Abi
  conditions : List EvmDataCondition
deriving DecidableEq

/-- `EvmMessageCriterion`: field `match` (named `matchRe` here because
`match` is a Lean keyword). -/
structure EvmMessageCriterion where
  matchRe : String
deriving DecidableEq

/-- `EvmTypedAddressCondition`: fields `addresses`, `operator`, `path`. -/
structure EvmTypedAddressCondition where
  addresses : List String
  operator : String
  path : String
deriving DecidableEq

/-- `EvmTypedNumericalCondition`: fields `value`, `operator`, `path`. -/
structure EvmTypedNumericalCondition where
  value : String
  operator : String
  path : String
deriving DecidableEq

/-- `EvmTypedStringCondition`: fields `match` (here `matchRe`) and `path`. -/
structure EvmTypedStringCondition where
  matchRe : String
  path : String
deriving DecidableEq

/-- The union `EvmTypedAddressCondition | EvmTypedNumericalCondition |
EvmTypedStringCondition` of `SignEvmTypedDataFieldCriterion.conditions`.  The
transformers discriminate by `hasattr(cond, "addresses")`, then
`hasattr(cond, "value")`, else the string condition; on this sum the
constructors carry exactly those fields. -/
inductive TypedCondition where
  | address (c : EvmTypedAddressCondition)
  | numerical (c : EvmTypedNumericalCondition)
  | strCond (c : EvmTypedStringCondition)
deriving DecidableEq

/-- One entry of an EIP-712 type definition list: a `dict[str, str]` value of
`types.py`, modelled as an insertion-ordered association list of key/value
pairs.  Any string keys are allowed — the entries are not restricted to
`name` and `type`.  Lean equality on this representation is
key-order-sensitive, a refinement of Python dict equality (which ignores
insertion order but compares key sets and values). -/
abbrev EIP712Entry : Type := List (String × String)

/-- `SignEvmTypedDataTypes`: fields `types`
(`dict[str, list[dict[str, str]]]`, an insertion-ordered map of model names
to entry-dict lists, modelled as an association list) and `primaryType`. -/
structure SignEvmTypedDataTypes where
  types : List (String × List EIP712Entry)
  primaryType : String
deriving DecidableEq

/-- `SignEvmTypedDataFieldCriterion`: fields `types` and `conditions`. -/
structure SignEvmTypedDataFieldCriterion where
  types : SignEvmTypedDataTypes
  conditions : List TypedCondition
deriving DecidableEq

/-- `SignEvmTypedDataVerifyingContractCriterion`: fields `addresses` and
`operator`. -/
structure SignEvmTypedDataVerifyingContractCriterion where
  addresses : List String
  operator : String
deriving DecidableEq

/-- `SolanaAddressCriterion`: fields `addresses` and `operator`. -/
structure SolanaAddressCriterion where
  addresses : List String
  operator : String
deriving DecidableEq

/-- The user-facing criterion union, one constructor per `type` tag.  The
constructor is the criterion's `type` discriminant (see `criterionType`). -/
inductive Criterion where
  | ethValue (c : EthValueCriterion)
  | evmAddress (c : EvmAddressCriterion)
  | evmNetwork (c : EvmNetworkCriterion)
  | evmData (c : EvmDataCriterion)
  | evmMessage (c : EvmMessageCriterion)
  | evmTypedDataField (c : SignEvmTypedDataFieldCriterion)
  | evmTypedDataVerifyingContract (c : SignEvmTypedDataVerifyingContractCriterion)
  | solAddress (c : SolanaAddressCriterion)
deriving DecidableEq

/-- The `type` tag of a criterion, as read by
`map_request_rules_to_openapi_format` (`criterion.type`). -/
def criterionType : Criterion → String
  | .ethValue _ => "ethValue"
  | .evmAddress _ => "evmAddress"
  | .evmNetwork _ => "evmNetwork"
  | .evmData _ => "evmData"
  | .evmMessage _ => "evmMessage"
  | .evmTypedDataField _ => "evmTypedDataField"
  | .evmTypedDataVerifyingContract _ => "evmTypedDataVerifyingContract"
  | .solAddress _ => "solAddress"

/-- A user-facing rule as the duck-typed request transformer sees it: an
`action`, an `operation` tag, and `criteria` when the rule variant carries
that field (`criteria = none` models a variant without the attribute, as in
`SignEvmHashRule`; the transformers test `hasattr(rule, "criteria")`).  The
six typed rule classes of `types.py` correspond to the values satisfying
`validRule` below. -/
structure Rule where
  action : String
  operation : String
  criteria : Option (List Criterion)
deriving DecidableEq

/-! ## Wire-format model (`cdp/openapi_client/models`, the fixed wire schema)

The OpenAPI wire classes mirror the user-facing ones under snake_case field
names; the per-operation `...CriteriaInner` and `Rule` classes are
discriminated-union envelopes around an `actual_instance`, which we collapse
into plain sum types. -/

namespace Wire

/-- Wire `EthValueCriterion`: fields `eth_value`, `operator`. -/
structure EthValueCriterion where
  eth_value : String
  operator : String
deriving DecidableEq

/-- Wire `EvmAddressCriterion`. -/
structure EvmAddressCriterion where
  addresses : List String
  operator : String
deriving DecidableEq

/-- Wire `EvmNetworkCriterion`. -/
structure EvmNetworkCriterion where
  networks : List String
  operator : String
deriving DecidableEq

/-- Wire `EvmDataParameterCondition`. -/
structure EvmDataParameterCondition where
  name : String
  operator : String
  value : String
deriving DecidableEq

/-- Wire `EvmDataParameterConditionList`. -/
structure EvmDataParameterConditionList where
  name : String
  operator : String
  values : List String
deriving DecidableEq

/-- Wire `EvmDataConditionParamsInner`: the envelope whose `actual_instance`
is either a single parameter condition or a parameter-condition list; the
response transformer discriminates with `hasattr(param.actual_instance,
"values")`, which on this sum is exactly the `condList` constructor. -/
inductive ParamInner where
  | cond (c : EvmDataParameterCondition)
  | condList (c : EvmDataParameterConditionList)
deriving DecidableEq

/-- Wire `EvmDataCondition` (`OpenAPIEvmDataCondition` in the request
transformer): fields `function` and optional `params`. -/
structure EvmDataCondition where
  function : String
  params : Option (List ParamInner)
deriving DecidableEq

/-- Wire `EvmDataCriterion`: the `abi` field is the `EvmDataCriterionAbi`
envelope around the same `KnownAbiType | AbiInner` union, collapsed here. -/
structure EvmDataCriterion where
  abi : Abi
  conditions : List EvmDataCondition
deriving DecidableEq

/-- Wire `EvmMessageCriterion` (`match` field, named `matchRe`). -/
structure EvmMessageCriterion where
  matchRe : String
deriving DecidableEq

/-- Wire `EvmTypedAddressCondition`. -/
structure EvmTypedAddressCondition where
  addresses : List String
  operator : String
  path : String
deriving DecidableEq

/-- Wire `EvmTypedNumericalCondition`. -/
structure EvmTypedNumericalCondition where
  value : String
  operator : String
  path : String
deriving DecidableEq

/-- Wire `EvmTypedStringCondition`. -/
structure EvmTypedStringCondition where
  matchRe : String
  path : String
deriving DecidableEq

/-- Wire `SignEvmTypedDataFieldCriterionConditionsInner`: the envelope over
the three typed-data condition variants.  These wire sub-types carry no
`type` tag; the response transformer discriminates by field presence
(`hasattr(cond.actual_instance, "addresses")`, then `"value"`, else the
string condition), which on this sum is the constructor. -/
inductive TypedConditionInner where
  | address (c : EvmTypedAddressCondition)
  | numerical (c : EvmTypedNumericalCondition)
  | strCond (c : EvmTypedStringCondition)
deriving DecidableEq

/-- Modelled from the spec: the wire schema's EIP-712 type-definition entry
(a generated model of `cdp/openapi_client`, not under `src/`), carrying the
two fields the response transformer reads (`item.name`, `item.type`); the
spec describes the wire schema as "functionally identical fields under the
remote service's casing convention". -/
structure EIP712Type where
  name : String
  type : String
deriving DecidableEq

/-- Wire `SignEvmTypedDataFieldCriterionTypes`: fields `types` and
`primary_type` (snake_case, unlike the user-facing `primaryType`); its
entries are the structured wire EIP-712 entries. -/
structure SignEvmTypedDataFieldCriterionTypes where
  types : List (String × List EIP712Type)
  primary_type : String
deriving DecidableEq

/-- Wire `SignEvmTypedDataFieldCriterion`. -/
structure SignEvmTypedDataFieldCriterion where
  types : SignEvmTypedDataFieldCriterionTypes
  conditions : List TypedConditionInner
deriving DecidableEq

/-- Wire `SignEvmTypedDataVerifyingContractCriterion`. -/
structure SignEvmTypedDataVerifyingContractCriterion where
  addresses : List String
  operator : String
deriving DecidableEq

/-- Wire `SolAddressCriterion`. -/
structure SolAddressCriterion where
  addresses : List String
  operator : String
deriving DecidableEq

/-- The wire criterion union: the per-operation `...CriteriaInner` envelopes
(`SendEvmTransactionCriteriaInner`, `SignEvmTransactionCriteriaInner`,
`SignEvmMessageCriteriaInner`, `SignEvmTypedDataCriteriaInner`,
`SignSolTransactionCriteriaInner`) collapsed into one sum; each carries its
`type` tag (see `criterionType`). -/
inductive Criterion where
  | ethValue (c : EthValueCriterion)
  | evmAddress (c : EvmAddressCriterion)
  | evmNetwork (c : EvmNetworkCriterion)
  | evmData (c : EvmDataCriterion)
  | evmMessage (c : EvmMessageCriterion)
  | evmTypedDataField (c : SignEvmTypedDataFieldCriterion)
  | evmTypedDataVerifyingContract (c : SignEvmTypedDataVerifyingContractCriterion)
  | solAddress (c : SolAddressCriterion)
deriving DecidableEq

/-- The `type` tag of a wire criterion, as read by
`map_openapi_rules_to_response_format` (`criterion.type` on the
`actual_instance`). -/
def criterionType : Criterion → String
  | .ethValue _ => "ethValue"
  | .evmAddress _ => "evmAddress"
  | .evmNetwork _ => "evmNetwork"
  | .evmData _ => "evmData"
  | .evmMessage _ => "evmMessage"
  | .evmTypedDataField _ => "evmTypedDataField"
  | .evmTypedDataVerifyingContract _ => "evmTypedDataVerifyingContract"
  | .solAddress _ => "solAddress"

/-- A wire rule: the `Rule` envelope around the per-operation wire rule
classes (`SendEvmTransactionRule`, ..., `SignSolTransactionRule`) collapsed
to action + operation + optional criteria.  `criteria = none` models a wire
rule class without the `criteria` attribute (`SignEvmHashRule`); the response
transformer tests `hasattr(instance, "criteria")`. -/
structure Rule where
  action : String
  operation : String
  criteria : Option (List Criterion)
deriving DecidableEq

end Wire

/-! ## Errors

The transformers raise `ValueError` with an `Unknown operation ...` or
`Unknown criterion type ...` message; the pydantic model constructions they
perform raise validation errors (`UserInputValidationError` from the
`field_validator`s, pydantic `ValidationError` for `Literal`/required-field
violations).  The spec's error taxonomy names these `UnknownOperation`,
`UnknownCriterionType` and `ValidationError`. -/

/-- Error taxonomy of the engine.  `unknownCriterionType` records the
operation when the message carries one (the request transformer's message is
`Unknown criterion type {type} for operation {operation}`; the response
transformer's omits the operation). -/
inductive TransformError where
  | unknownOperation (operation : String)
  | unknownCriterionType (ctype : String) (operation : Option String)
  | validationError (message : String)
deriving DecidableEq

deriving instance DecidableEq for Except

/-- Whether an `Except` result is a success. -/
def exceptIsOk : Except ε α → Bool
  | .ok _ => true
  | .error _ => false

/-- Whether a transformation result failed with `UnknownOperation`. -/
def isUnknownOperationError : Except TransformError α → Bool
  | .error (.unknownOperation _) => true
  | _ => false

/-- Whether a transformation result failed with `UnknownCriterionType`. -/
def isUnknownCriterionTypeError : Except TransformError α → Bool
  | .error (.unknownCriterionType _ _) => true
  | _ => false

/-! ## Construction-time validation (`types.py`)

Each `mk*` function models constructing the corresponding pydantic model:
it runs the field checks (the `Literal` type constraints and the
`field_validator`s, in pydantic's field/validator declaration order) and
returns the value or the first validation error. -/

/-- Constructing `EthValueCriterion(ethValue=v, operator=o)`:
`validate_eth_value` requires `v.isdigit()`; the `operator` field is
`Literal[">", "<", ">=", "<=", "==", "!="]`. -/
def mkEthValueCriterion (v o : String) : Except TransformError EthValueCriterion :=
  if !pyIsdigit v then
    .error (.validationError "ethValue must contain only digits")
  else if !comparisonOperatorsEth.contains o then
    .error (.validationError "operator must be one of the comparison operators")
  else
    .ok ⟨v, o⟩

/-- Constructing `EvmAddressCriterion(addresses=a, operator=o)`:
`validate_addresses_length` (at most 300), then `validate_addresses_format`
(each address matches the EVM address regex), then the `operator`
`Literal["in", "not in"]`. -/
def mkEvmAddressCriterion (a : List String) (o : String) :
    Except TransformError EvmAddressCriterion :=
  if a.length > 300 then
    .error (.validationError "Maximum of 300 addresses allowed")
  else if a.any (fun addr => !matchesEvmAddressRegex addr) then
    .error (.validationError "must validate the evm address regular expression")
  else if !membershipOperators.contains o then
    .error (.validationError "operator must be one of in, not in")
  else
    .ok ⟨a, o⟩

/-- Constructing `EvmNetworkCriterion(networks=n, operator=o)`: each network
must be a member of `Literal["base-sepolia", "base"]`; the operator of
`Literal["in", "not in"]`. -/
def mkEvmNetworkCriterion (n : List String) (o : String) :
    Except TransformError EvmNetworkCriterion :=
  if n.any (fun net => !allowedNetworks.contains net) then
    .error (.validationError "network must be one of base-sepolia, base")
  else if !membershipOperators.contains o then
    .error (.validationError "operator must be one of in, not in")
  else
    .ok ⟨n, o⟩

/-- Constructing `EvmDataParameterCondition(name=n, operator=o, value=v)`:
`validate_operator_enum` requires the ordered-comparison set. -/
def mkEvmDataParameterCondition (n o v : String) :
    Except TransformError EvmDataParameterCondition :=
  if !comparisonOperatorsOrdered.contains o then
    .error (.validationError "must be one of the ordered comparison enum values")
  else
    .ok ⟨n, o, v⟩

/-- Constructing `EvmDataParameterConditionList(name=n, operator=o,
values=vs)`: `validate_operator_enum` requires the membership set. -/
def mkEvmDataParameterConditionList (n o : String) (vs : List String) :
    Except TransformError EvmDataParameterConditionList :=
  if !membershipOperators.contains o then
    .error (.validationError "must be one of enum values in, not in")
  else
    .ok ⟨n, o, vs⟩

/-- Constructing `EvmTypedAddressCondition(addresses=a, operator=o, path=p)`:
same address validators as `EvmAddressCriterion`, operator
`Literal["in", "not in"]`. -/
def mkEvmTypedAddressCondition (a : List String) (o p : String) :
    Except TransformError EvmTypedAddressCondition :=
  if a.length > 300 then
    .error (.validationError "Maximum of 300 addresses allowed")
  else if a.any (fun addr => !matchesEvmAddressRegex addr) then
    .error (.validationError "must validate the evm address regular expression")
  else if !membershipOperators.contains o then
    .error (.validationError "operator must be one of in, not in")
  else
    .ok ⟨a, o, p⟩

/-- Constructing `EvmTypedNumericalCondition(value=v, operator=o, path=p)`:
`validate_value` requires `v.isdigit()`, the operator the ordered set. -/
def mkEvmTypedNumericalCondition (v o p : String) :
    Except TransformError EvmTypedNumericalCondition :=
  if !pyIsdigit v then
    .error (.validationError "value must contain only digits")
  else if !comparisonOperatorsOrdered.contains o then
    .error (.validationError "operator must be one of the ordered comparison operators")
  else
    .ok ⟨v, o, p⟩

/-- Constructing `SignEvmTypedDataVerifyingContractCriterion(addresses=a,
operator=o)`: same validators as `EvmAddressCriterion`. -/
def mkSignEvmTypedDataVerifyingContractCriterion (a : List String) (o : String) :
    Except TransformError SignEvmTypedDataVerifyingContractCriterion :=
  if a.length > 300 then
    .error (.validationError "Maximum of 300 addresses allowed")
  else if a.any (fun addr => !matchesEvmAddressRegex addr) then
    .error (.validationError "must validate the evm address regular expression")
  else if !membershipOperators.contains o then
    .error (.validationError "operator must be one of in, not in")
  else
    .ok ⟨a, o⟩

/-- Constructing `SolanaAddressCriterion(addresses=a, operator=o)`:
`validate_address_format` requires each address to match the Base58 regex
(note: no length-300 cap here), the operator `Literal["in", "not in"]`. -/
def mkSolanaAddressCriterion (a : List String) (o : String) :
    Except TransformError SolanaAddressCriterion :=
  if a.any (fun addr => !matchesSolAddressRegex addr) then
    .error (.validationError "Invalid address format")
  else if !membershipOperators.contains o then
    .error (.validationError "operator must be one of in, not in")
  else
    .ok ⟨a, o⟩

/-! ## Request transformer (`cdp/policies/request_transformer.py`) -/

/-- The keys of `openapi_criterion_mapping` (and of `openapi_rule_mapping`,
`response_criterion_mapping`, `response_rule_mapping`): the six supported
operations.  `rule.operation not in openapi_criterion_mapping` is membership
in this list. -/
def knownOperations : List String :=
  ["sendEvmTransaction", "signEvmTransaction", "signEvmHash",
   "signEvmMessage", "signEvmTypedData", "signSolTransaction"]

/-- `KnownAbiType(c.abi) if isinstance(c.abi, str) else c.abi`: a known tag
(a `str` enum member) is re-wrapped by the enum constructor, the identity on
valid members; an `AbiInner` fragment is passed through. -/
def abiToWire : Abi → Abi
  | .known tag => .known tag
  | .fragment inner => .fragment inner

/-- One `EvmDataConditionParamsInner(actual_instance=...)` of the request
transformer: `EvmDataParameterConditionList(...) if hasattr(param, "values")
else EvmDataParameterCondition(...)`. -/
def paramToWire : ParamCondition → Wire.ParamInner
  | .condList p => .condList ⟨p.name, p.operator, p.values⟩
  | .cond p => .cond ⟨p.name, p.operator, p.value⟩

/-- One `OpenAPIEvmDataCondition(...)` of the request transformer.  The
`params` argument is `[...comprehension...] if cond.params else None`:
Python truthiness makes both `None` and the empty list fall to `None`. -/
def dataConditionToWire (c : EvmDataCondition) : Wire.EvmDataCondition :=
  ⟨c.function,
   match c.params with
   | some (p :: ps) => some ((p :: ps).map paramToWire)
   | _ => none⟩

/-- One `SignEvmTypedDataFieldCriterionConditionsInner(actual_instance=...)`:
`EvmTypedAddressCondition(...) if hasattr(cond, "addresses") else
EvmTypedNumericalCondition(...) if hasattr(cond, "value") else
EvmTypedStringCondition(...)`. -/
def typedConditionToWire : TypedCondition → Wire.TypedConditionInner
  | .address c => .address ⟨c.addresses, c.operator, c.path⟩
  | .numerical c => .numerical ⟨c.value, c.operator, c.path⟩
  | .strCond c => .strCond ⟨c.matchRe, c.path⟩

/-- Modelled from the spec: constructing the wire
`SignEvmTypedDataFieldCriterionTypes(types=c.types.types, primary_type=...)`
coerces each user-facing entry dict into the structured wire entry (a
pydantic model of `cdp/openapi_client`, not under `src/`).  We model the
coercion as extraction of the values under the keys `name` and `type` (first
occurrence; the empty string when a key is absent — no claim exercises
ill-keyed entries, and the round-trip theorem's hypothesis excludes them). -/
def entryToWire (d : EIP712Entry) : Wire.EIP712Type :=
  ⟨(d.lookup "name").getD "", (d.lookup "type").getD ""⟩

/-- The wire form of the EIP-712 `types` mapping: every entry dict of every
model is coerced into the wire entry type; `primary_type` takes the
user-facing `primaryType`. -/
def typesToWire (t : SignEvmTypedDataTypes) : Wire.SignEvmTypedDataFieldCriterionTypes :=
  ⟨t.types.map fun kv => (kv.1, kv.2.map entryToWire), t.primaryType⟩

/-- The per-operation criterion-constructor table
`openapi_criterion_mapping`, with the two dictionary lookups fused: the
result is `none` exactly when the criterion's `type` tag is not a key of the
operation's constructor sub-table (the tag of a `Criterion` value is its
constructor, so the lookup and the constructor application combine into one
match), and `some w` is the constructed wire criterion otherwise.  An
operation outside the six has no sub-table at all. -/
def openapi_criterion_mapping (op : String) (c : Criterion) : Option Wire.Criterion :=
  if op == "sendEvmTransaction" then
    match c with
    | .ethValue c => some (.ethValue ⟨c.ethValue, c.operator⟩)
    | .evmAddress c => some (.evmAddress ⟨c.addresses, c.operator⟩)
    | .evmNetwork c => some (.evmNetwork ⟨c.networks, c.operator⟩)
    | .evmData c =>
        some (.evmData ⟨abiToWire c.abi, c.conditions.map dataConditionToWire⟩)
    | _ => none
  else if op == "signEvmTransaction" then
    match c with
    | .ethValue c => some (.ethValue ⟨c.ethValue, c.operator⟩)
    | .evmAddress c => some (.evmAddress ⟨c.addresses, c.operator⟩)
    | .evmData c =>
        some (.evmData ⟨abiToWire c.abi, c.conditions.map dataConditionToWire⟩)
    | _ => none
  else if op == "signEvmHash" then
    none
  else if op == "signEvmMessage" then
    match c with
    | .evmMessage c => some (.evmMessage ⟨c.matchRe⟩)
    | _ => none
  else if op == "signEvmTypedData" then
    match c with
    | .evmTypedDataField c =>
        some (.evmTypedDataField
          ⟨typesToWire c.types, c.conditions.map typedConditionToWire⟩)
    | .evmTypedDataVerifyingContract c =>
        some (.evmTypedDataVerifyingContract ⟨c.addresses, c.operator⟩)
    | _ => none
  else if op == "signSolTransaction" then
    match c with
    | .solAddress c => some (.solAddress ⟨c.addresses, c.operator⟩)
    | _ => none
  else
    none

/-- The inner loop of `map_request_rules_to_openapi_format` over
`rule.criteria`: on the first criterion whose `type` is not in the
operation's builder table it raises `Unknown criterion type {type} for
operation {operation}`. -/
def buildCriteria (op : String) : List Criterion → Except TransformError (List Wire.Criterion)
  | [] => .ok []
  | c :: cs =>
    match openapi_criterion_mapping op c with
    | none => .error (.unknownCriterionType (criterionType c) (some op))
    | some w =>
      match buildCriteria op cs with
      | .ok ws => .ok (w :: ws)
      | .error e => .error e

/-- The body of `map_request_rules_to_openapi_format` for one rule: reject an
operation outside the table keys with `Unknown operation {operation}`; emit a
bare action+operation wire rule when the rule variant has no `criteria`
attribute; otherwise transform the criteria in order. -/
def buildRequestRule (r : Rule) : Except TransformError Wire.Rule :=
  if knownOperations.contains r.operation then
    match r.criteria with
    | none => .ok ⟨r.action, r.operation, none⟩
    | some cs =>
      match buildCriteria r.operation cs with
      | .ok ws => .ok ⟨r.action, r.operation, some ws⟩
      | .error e => .error e
  else
    .error (.unknownOperation r.operation)

/-- Sequential accumulation of per-element `Except` results, the shape of
both transformers' outer loops: elements are processed in order and the
first raised error aborts the whole call with no partial list. -/
def mapExcept (f : α → Except ε β) : List α → Except ε (List β)
  | [] => .ok []
  | a :: as =>
    match f a with
    | .ok b =>
      match mapExcept f as with
      | .ok bs => .ok (b :: bs)
      | .error e => .error e
    | .error e => .error e

/-- `map_request_rules_to_openapi_format`: the whole request transformer. -/
def map_request_rules_to_openapi_format (rules : List Rule) :
    Except TransformError (List Wire.Rule) :=
  mapExcept buildRequestRule rules

/-! ## Response transformer (`cdp/policies/response_transformer.py`) -/

/-- `c.abi.actual_instance`: unwrap the wire envelope, yielding the same
`KnownAbiType | AbiInner` union value. -/
def abiFromWire : Abi → Abi
  | .known tag => .known tag
  | .fragment inner => .fragment inner

/-- One parameter of the response transformer's `evmData` lambda:
`EvmDataParameterConditionListModel(...) if hasattr(param.actual_instance,
"values") else EvmDataParameterConditionModel(...)`; the model constructions
re-run the operator validators of `types.py`. -/
def parseParam : Wire.ParamInner → Except TransformError ParamCondition
  | .condList p =>
    match mkEvmDataParameterConditionList p.name p.operator p.values with
    | .ok c => .ok (.condList c)
    | .error e => .error e
  | .cond p =>
    match mkEvmDataParameterCondition p.name p.operator p.value with
    | .ok c => .ok (.cond c)
    | .error e => .error e

/-- The parameter list comprehension of the `evmData` response lambda. -/
def parseParams : List Wire.ParamInner → Except TransformError (List ParamCondition)
  | [] => .ok []
  | p :: ps =>
    match parseParam p with
    | .ok q =>
      match parseParams ps with
      | .ok qs => .ok (q :: qs)
      | .error e => .error e
    | .error e => .error e

/-- One `EvmDataConditionModel(...)` of the response transformer; its
`params` argument is again guarded by `if cond.params else None`, so a wire
`None` or empty list both become `None`. -/
def parseDataCondition (w : Wire.EvmDataCondition) : Except TransformError EvmDataCondition :=
  match w.params with
  | some (p :: ps) =>
    match parseParams (p :: ps) with
    | .ok qs => .ok ⟨w.function, some qs⟩
    | .error e => .error e
  | _ => .ok ⟨w.function, none⟩

/-- The condition list comprehension of the `evmData` response lambda. -/
def parseDataConditions : List Wire.EvmDataCondition → Except TransformError (List EvmDataCondition)
  | [] => .ok []
  | c :: cs =>
    match parseDataCondition c with
    | .ok d =>
      match parseDataConditions cs with
      | .ok ds => .ok (d :: ds)
      | .error e => .error e
    | .error e => .error e

/-- One typed-data condition of the response transformer's
`evmTypedDataField` lambda: `EvmTypedAddressConditionModel(...) if
hasattr(cond.actual_instance, "addresses") else
EvmTypedNumericalConditionModel(...) if hasattr(cond.actual_instance,
"value") else EvmTypedStringConditionModel(...)`; the constructions re-run
the validators of `types.py`. -/
def parseTypedCondition : Wire.TypedConditionInner → Except TransformError TypedCondition
  | .address c =>
    match mkEvmTypedAddressCondition c.addresses c.operator c.path with
    | .ok d => .ok (.address d)
    | .error e => .error e
  | .numerical c =>
    match mkEvmTypedNumericalCondition c.value c.operator c.path with
    | .ok d => .ok (.numerical d)
    | .error e => .error e
  | .strCond c => .ok (.strCond ⟨c.matchRe, c.path⟩)

/-- The condition list comprehension of the `evmTypedDataField` response
lambda. -/
def parseTypedConditions : List Wire.TypedConditionInner → Except TransformError (List TypedCondition)
  | [] => .ok []
  | c :: cs =>
    match parseTypedCondition c with
    | .ok d =>
      match parseTypedConditions cs with
      | .ok ds => .ok (d :: ds)
      | .error e => .error e
    | .error e => .error e

/-- One rebuilt entry of the `evmTypedDataField` response lambda:
`{"name": item.name, "type": item.type}` — a dict carrying exactly the keys
`name` and `type`, in that insertion order. -/
def entryFromWire (e : Wire.EIP712Type) : EIP712Entry :=
  [("name", e.name), ("type", e.type)]

/-- The rebuilt `types` mapping of the `evmTypedDataField` response lambda:
`{key: [{"name": item.name, "type": item.type} for item in value] for key,
value in c.types.types.items()}` with `primaryType=c.types.primary_type`. -/
def typesFromWire (t : Wire.SignEvmTypedDataFieldCriterionTypes) : SignEvmTypedDataTypes :=
  ⟨t.types.map fun kv => (kv.1, kv.2.map entryFromWire), t.primary_type⟩

/-- The per-operation table `response_criterion_mapping` with the tag lookup
fused, as in `openapi_criterion_mapping`: a wire criterion whose `type` tag
is not a key of the operation's constructor table raises `Unknown criterion
type {type}` (no operation in the message); otherwise the response lambda
runs, rebuilding the user-facing pydantic models (whose constructions
re-validate their fields). -/
def response_criterion_mapping (op : String) (w : Wire.Criterion) :
    Except TransformError Criterion :=
  if op == "sendEvmTransaction" then
    match w with
    | .ethValue c =>
      match mkEthValueCriterion c.eth_value c.operator with
      | .ok d => .ok (.ethValue d)
      | .error e => .error e
    | .evmAddress c =>
      match mkEvmAddressCriterion c.addresses c.operator with
      | .ok d => .ok (.evmAddress d)
      | .error e => .error e
    | .evmNetwork c =>
      match mkEvmNetworkCriterion c.networks c.operator with
      | .ok d => .ok (.evmNetwork d)
      | .error e => .error e
    | .evmData c =>
      match parseDataConditions c.conditions with
      | .ok ds => .ok (.evmData ⟨abiFromWire c.abi, ds⟩)
      | .error e => .error e
    | _ => .error (.unknownCriterionType (Wire.criterionType w) none)
  else if op == "signEvmTransaction" then
    match w with
    | .ethValue c =>
      match mkEthValueCriterion c.eth_value c.operator with
      | .ok d => .ok (.ethValue d)
      | .error e => .error e
    | .evmAddress c =>
      match mkEvmAddressCriterion c.addresses c.operator with
      | .ok d => .ok (.evmAddress d)
      | .error e => .error e
    | .evmData c =>
      match parseDataConditions c.conditions with
      | .ok ds => .ok (.evmData ⟨abiFromWire c.abi, ds⟩)
      | .error e => .error e
    | _ => .error (.unknownCriterionType (Wire.criterionType w) none)
  else if op == "signEvmHash" then
    .error (.unknownCriterionType (Wire.criterionType w) none)
  else if op == "signEvmMessage" then
    match w with
    | .evmMessage c => .ok (.evmMessage ⟨c.matchRe⟩)
    | _ => .error (.unknownCriterionType (Wire.criterionType w) none)
  else if op == "signEvmTypedData" then
    match w with
    | .evmTypedDataField c =>
      match parseTypedConditions c.conditions with
      | .ok ds =>
        .ok (.evmTypedDataField ⟨typesFromWire c.types, ds⟩)
      | .error e => .error e
    | .evmTypedDataVerifyingContract c =>
      match mkSignEvmTypedDataVerifyingContractCriterion c.addresses c.operator with
      | .ok d => .ok (.evmTypedDataVerifyingContract d)
      | .error e => .error e
    | _ => .error (.unknownCriterionType (Wire.criterionType w) none)
  else if op == "signSolTransaction" then
    match w with
    | .solAddress c =>
      match mkSolanaAddressCriterion c.addresses c.operator with
      | .ok d => .ok (.solAddress d)
      | .error e => .error e
    | _ => .error (.unknownCriterionType (Wire.criterionType w) none)
  else
    .error (.unknownCriterionType (Wire.criterionType w) none)

/-- The inner loop of `map_openapi_rules_to_response_format` over
`instance.criteria`. -/
def parseCriteria (op : String) : List Wire.Criterion → Except TransformError (List Criterion)
  | [] => .ok []
  | w :: ws =>
    match response_criterion_mapping op w with
    | .ok c =>
      match parseCriteria op ws with
      | .ok cs => .ok (c :: cs)
      | .error e => .error e
    | .error e => .error e

/-- The body of `map_openapi_rules_to_response_format` for one wire rule:
unknown operations raise `Unknown operation {operation}`; a wire rule class
without a `criteria` attribute maps through `rule_class(action=...)`;
otherwise the criteria are transformed in order and the user-facing rule
model is constructed.  The final pydantic construction validates the
`action` literal; a rule model that requires `criteria` (every operation but
`signEvmHash`) fails if the attribute was absent, and `SignEvmHashRuleModel`
ignores a `criteria` keyword (pydantic's default `extra="ignore"`), so the
resulting `signEvmHash` rule never carries criteria. -/
def parseResponseRule (w : Wire.Rule) : Except TransformError Rule :=
  if knownOperations.contains w.operation then
    match w.criteria with
    | none =>
      if w.operation == "signEvmHash" then
        if validAction w.action then .ok ⟨w.action, w.operation, none⟩
        else .error (.validationError "action must be one of reject, accept")
      else .error (.validationError "criteria field required")
    | some ws =>
      match parseCriteria w.operation ws with
      | .error e => .error e
      | .ok cs =>
        if validAction w.action then
          if w.operation == "signEvmHash" then .ok ⟨w.action, w.operation, none⟩
          else .ok ⟨w.action, w.operation, some cs⟩
        else .error (.validationError "action must be one of reject, accept")
  else
    .error (.unknownOperation w.operation)

/-- `map_openapi_rules_to_response_format`: the whole response transformer. -/
def map_openapi_rules_to_response_format (rules : List Wire.Rule) :
    Except TransformError (List Rule) :=
  mapExcept parseResponseRule rules

/-! ## Validity of user-facing rules (construction-time invariants)

`validRule` characterises the values of `Rule` that correspond to instances
of the six typed rule classes of `types.py`: a valid action literal, one of
the six operations, the `criteria` attribute present exactly when the
variant carries it, every criterion's `type` legal for the operation, and
every criterion satisfying its own construction-time validation. -/

/-- The legality table (operation → allowed criterion `type` tags) of §4.4:
the key sets of the per-operation constructor sub-tables. -/
def allowedCriterionTags : String → List String
  | "sendEvmTransaction" => ["ethValue", "evmAddress", "evmNetwork", "evmData"]
  | "signEvmTransaction" => ["ethValue", "evmAddress", "evmData"]
  | "signEvmHash" => []
  | "signEvmMessage" => ["evmMessage"]
  | "signEvmTypedData" => ["evmTypedDataField", "evmTypedDataVerifyingContract"]
  | "signSolTransaction" => ["solAddress"]
  | _ => []

/-- Construction-time validity of one `EvmDataCondition.params` entry. -/
def validParamCondition : ParamCondition → Bool
  | .cond p => comparisonOperatorsOrdered.contains p.operator
  | .condList p => membershipOperators.contains p.operator

/-- Construction-time validity of an `EvmDataCondition`. -/
def validDataCondition (c : EvmDataCondition) : Bool :=
  match c.params with
  | none => true
  | some ps => ps.all validParamCondition

/-- Construction-time validity of a typed-data condition. -/
def validTypedCondition : TypedCondition → Bool
  | .address c =>
      c.addresses.length ≤ 300 && c.addresses.all matchesEvmAddressRegex &&
      membershipOperators.contains c.operator
  | .numerical c => pyIsdigit c.value && comparisonOperatorsOrdered.contains c.operator
  | .strCond _ => true

/-- Construction-time validity of a user-facing criterion: the checks the
pydantic model constructors of `types.py` run. -/
def validCriterion : Criterion → Bool
  | .ethValue c => pyIsdigit c.ethValue && comparisonOperatorsEth.contains c.operator
  | .evmAddress c =>
      c.addresses.length ≤ 300 && c.addresses.all matchesEvmAddressRegex &&
      membershipOperators.contains c.operator
  | .evmNetwork c =>
      c.networks.all (fun n => allowedNetworks.contains n) &&
      membershipOperators.contains c.operator
  | .evmData c => c.conditions.all validDataCondition
  | .evmMessage _ => true
  | .evmTypedDataField c => c.conditions.all validTypedCondition
  | .evmTypedDataVerifyingContract c =>
      c.addresses.length ≤ 300 && c.addresses.all matchesEvmAddressRegex &&
      membershipOperators.contains c.operator
  | .solAddress c =>
      c.addresses.all matchesSolAddressRegex && membershipOperators.contains c.operator

/-- A valid user-facing rule: an instance of one of the six typed rule
classes of `types.py`. -/
def validRule (r : Rule) : Bool :=
  validAction r.action && knownOperations.contains r.operation &&
  (match r.criteria with
   | none => r.operation == "signEvmHash"
   | some cs =>
     r.operation != "signEvmHash" &&
     cs.all (fun c =>
       (allowedCriterionTags r.operation).contains (criterionType c) && validCriterion c))

/-! ## Absence of empty-but-present parameter lists

The transformers' `if cond.params else None` guard collapses an empty
`params` list to `None`; the predicates below single out the rules free of
that corner. -/

/-- The condition's `params` is not an empty-but-present list. -/
def dataConditionParamsNotEmptyList (c : EvmDataCondition) : Bool :=
  match c.params with
  | some [] => false
  | _ => true

/-- No `EvmDataCondition` of the criterion carries `params = some []`. -/
def criterionNoEmptyParams : Criterion → Bool
  | .evmData c => c.conditions.all dataConditionParamsNotEmptyList
  | _ => true

/-- No `EvmDataCondition` anywhere in the rule carries `params = some []`. -/
def ruleNoEmptyParams (r : Rule) : Bool :=
  match r.criteria with
  | none => true
  | some cs => cs.all criterionNoEmptyParams

/-! ## Canonical EIP-712 entries

The response transformer rebuilds every EIP-712 type-definition entry as a
dict with exactly the keys `name` and `type`, so an entry of any other shape
(an extra key, a missing key) cannot survive the wire trip.  The predicates
below single out the rules all of whose entries already have that canonical
shape. -/

/-- The entry is exactly `[("name", _), ("type", _)]`, the shape the response
transformer produces (Python dict equality would also accept the two keys in
the other order; this Lean statement uses the canonical order). -/
def entryIsNameType (d : EIP712Entry) : Bool :=
  match d with
  | [(k1, _), (k2, _)] => k1 == "name" && k2 == "type"
  | _ => false

/-- Every entry of the EIP-712 `types` mapping is canonical. -/
def typesEntriesNameType (t : SignEvmTypedDataTypes) : Bool :=
  t.types.all fun kv => kv.2.all entryIsNameType

/-- Every EIP-712 entry of the criterion is canonical. -/
def criterionEntriesNameType : Criterion → Bool
  | .evmTypedDataField c => typesEntriesNameType c.types
  | _ => true

/-- Every EIP-712 entry anywhere in the rule is canonical. -/
def ruleEntriesNameType (r : Rule) : Bool :=
  match r.criteria with
  | none => true
  | some cs => cs.all criterionEntriesNameType

/-! ## Concrete values used in witnesses and counterexamples -/

/-- A well-formed EVM address: `0x` followed by 40 hexadecimal digits. -/
def goodEvmAddress : String := "0x1234567890abcdef1234567890abcdef12345678"

/-- A 41-character address: `0x` followed by only 39 hexadecimal digits. -/
def shortEvmAddress : String := "0x1234567890abcdef1234567890abcdef1234567"

/-- A well-formed Solana address (44 Base58 characters). -/
def goodSolAddress : String := "HpabPRRCFbBKSuJr5PdkVvQc85FyxyTWkFM2obBRSvHT"

/-- The valid rule on which the literal round-trip claim fails: a
`sendEvmTransaction` rule whose `evmData` criterion holds one condition with
an empty (but present) `params` list. -/
def emptyParamsRule : Rule :=
  ⟨"accept", "sendEvmTransaction",
   some [.evmData ⟨.known .erc20, [⟨"transfer", some []⟩]⟩]⟩

/-- What `emptyParamsRule` round-trips to: the same rule with the empty
`params` list collapsed to `none`. -/
def emptyParamsRuleCollapsed : Rule :=
  ⟨"accept", "sendEvmTransaction",
   some [.evmData ⟨.known .erc20, [⟨"transfer", none⟩]⟩]⟩

/-- A representative valid rule exercising every criterion family of
`sendEvmTransaction`, used to instantiate the round-trip theorem. -/
def sampleSendRule : Rule :=
  ⟨"accept", "sendEvmTransaction",
   some [.ethValue ⟨"1000000000000000000", ">"⟩,
         .evmAddress ⟨[goodEvmAddress], "in"⟩,
         .evmNetwork ⟨["base-sepolia", "base"], "in"⟩,
         .evmData ⟨.known .erc20,
           [⟨"transfer", some [.cond ⟨"amount", "<=", "100"⟩,
                               .condList ⟨"to", "in", [goodEvmAddress]⟩]⟩,
            ⟨"approve", none⟩]⟩]⟩

/-- The `signEvmTypedData` rule of the claimed two-condition scenario (its
EIP-712 entry is the dict with keys `name` and `type`). -/
def typedDataScenarioRule : Rule :=
  ⟨"accept", "signEvmTypedData",
   some [.evmTypedDataField
     ⟨⟨[("EIP712Domain", [[("name", "name"), ("type", "string")]])], "EIP712Domain"⟩,
      [.address ⟨[goodEvmAddress], "in", "to"⟩,
       .numerical ⟨"1000", "<", "amount"⟩]⟩]⟩

/-- The wire form of `typedDataScenarioRule`. -/
def typedDataScenarioWireRule : Wire.Rule :=
  ⟨"accept", "signEvmTypedData",
   some [.evmTypedDataField
     ⟨⟨[("EIP712Domain", [⟨"name", "string"⟩])], "EIP712Domain"⟩,
      [.address ⟨[goodEvmAddress], "in", "to"⟩,
       .numerical ⟨"1000", "<", "amount"⟩]⟩]⟩

/-- A rule with an unrecognized operation tag. -/
def unknownOpRule : Rule := ⟨"accept", "unknownOp", some []⟩

/-- A `signEvmTransaction` rule carrying an `evmNetwork` criterion, which is
legal only for `sendEvmTransaction`. -/
def networkUnderSignRule : Rule :=
  ⟨"accept", "signEvmTransaction", some [.evmNetwork ⟨["base"], "in"⟩]⟩

/-- A valid `signEvmTypedData` rule one of whose EIP-712 entries carries an
extra key (`"foo"`) besides `name` and `type` — a legal `dict[str, str]`
value in `types.py`. -/
def extraKeyRule : Rule :=
  ⟨"accept", "signEvmTypedData",
   some [.evmTypedDataField
     ⟨⟨[("EIP712Domain",
         [[("name", "verifyingContract"), ("type", "address"), ("foo", "bar")]])],
       "EIP712Domain"⟩,
      [.strCond ⟨"^order", "metadata.description"⟩]⟩]⟩

/-- What `extraKeyRule` round-trips to: the response transformer rebuilds the
entry with only its `name` and `type` keys, dropping `"foo"`. -/
def extraKeyRuleCollapsed : Rule :=
  ⟨"accept", "signEvmTypedData",
   some [.evmTypedDataField
     ⟨⟨[("EIP712Domain",
         [[("name", "verifyingContract"), ("type", "address")]])],
       "EIP712Domain"⟩,
      [.strCond ⟨"^order", "metadata.description"⟩]⟩]⟩


/-! ## Helper lemmas -/

/-- If every element satisfies `p`, no element satisfies `!p`. -/
theorem any_not_eq_false (p : α → Bool) (l : List α) (h : l.all p = true) :
    (l.any fun a => !p a) = false := by
  rw [← Bool.not_eq_true]
  intro hcontra
  simp only [List.any_eq_true, Bool.not_eq_true'] at hcontra
  obtain ⟨a, ha, hpa⟩ := hcontra
  simp only [List.all_eq_true] at h
  simp [h a ha] at hpa

/-- `List.contains` on strings is list membership. -/
theorem mem_of_contains {l : List String} {s : String} (h : l.contains s = true) : s ∈ l := by
  simpa using h

/-- Case split over the six supported operations. -/
theorem known_op_cases {op : String} (h : knownOperations.contains op = true) :
    op = "sendEvmTransaction" ∨ op = "signEvmTransaction" ∨ op = "signEvmHash" ∨
    op = "signEvmMessage" ∨ op = "signEvmTypedData" ∨ op = "signSolTransaction" := by
  have h' : op ∈ knownOperations := mem_of_contains h
  simpa [knownOperations] using h'

/-- `mkEthValueCriterion` succeeds on valid fields. -/
theorem mkEthValueCriterion_ok (v o : String) (h1 : pyIsdigit v = true)
    (h2 : comparisonOperatorsEth.contains o = true) :
    mkEthValueCriterion v o = .ok ⟨v, o⟩ := by
  unfold mkEthValueCriterion
  rw [h1, h2]
  simp

/-- `mkEvmAddressCriterion` succeeds on valid fields. -/
theorem mkEvmAddressCriterion_ok (a : List String) (o : String) (h1 : a.length ≤ 300)
    (h2 : a.all matchesEvmAddressRegex = true)
    (h3 : membershipOperators.contains o = true) :
    mkEvmAddressCriterion a o = .ok ⟨a, o⟩ := by
  unfold mkEvmAddressCriterion
  rw [any_not_eq_false _ _ h2, h3]
  simp [Nat.not_lt.mpr h1]

/-- `mkEvmNetworkCriterion` succeeds on valid fields. -/
theorem mkEvmNetworkCriterion_ok (n : List String) (o : String)
    (h1 : (n.all fun net => allowedNetworks.contains net) = true)
    (h2 : membershipOperators.contains o = true) :
    mkEvmNetworkCriterion n o = .ok ⟨n, o⟩ := by
  unfold mkEvmNetworkCriterion
  rw [any_not_eq_false _ _ h1, h2]
  simp

/-- `mkEvmDataParameterCondition` succeeds on a valid operator. -/
theorem mkEvmDataParameterCondition_ok (n o v : String)
    (h : comparisonOperatorsOrdered.contains o = true) :
    mkEvmDataParameterCondition n o v = .ok ⟨n, o, v⟩ := by
  unfold mkEvmDataParameterCondition
  rw [h]
  simp

/-- `mkEvmDataParameterConditionList` succeeds on a valid operator. -/
theorem mkEvmDataParameterConditionList_ok (n o : String) (vs : List String)
    (h : membershipOperators.contains o = true) :
    mkEvmDataParameterConditionList n o vs = .ok ⟨n, o, vs⟩ := by
  unfold mkEvmDataParameterConditionList
  rw [h]
  simp

/-- `mkEvmTypedAddressCondition` succeeds on valid fields. -/
theorem mkEvmTypedAddressCondition_ok (a : List String) (o p : String)
    (h1 : a.length ≤ 300) (h2 : a.all matchesEvmAddressRegex = true)
    (h3 : membershipOperators.contains o = true) :
    mkEvmTypedAddressCondition a o p = .ok ⟨a, o, p⟩ := by
  unfold mkEvmTypedAddressCondition
  rw [any_not_eq_false _ _ h2, h3]
  simp [Nat.not_lt.mpr h1]

/-- `mkEvmTypedNumericalCondition` succeeds on valid fields. -/
theorem mkEvmTypedNumericalCondition_ok (v o p : String) (h1 : pyIsdigit v = true)
    (h2 : comparisonOperatorsOrdered.contains o = true) :
    mkEvmTypedNumericalCondition v o p = .ok ⟨v, o, p⟩ := by
  unfold mkEvmTypedNumericalCondition
  rw [h1, h2]
  simp

/-- `mkSignEvmTypedDataVerifyingContractCriterion` succeeds on valid fields. -/
theorem mkSignEvmTypedDataVerifyingContractCriterion_ok (a : List String) (o : String)
    (h1 : a.length ≤ 300) (h2 : a.all matchesEvmAddressRegex = true)
    (h3 : membershipOperators.contains o = true) :
    mkSignEvmTypedDataVerifyingContractCriterion a o = .ok ⟨a, o⟩ := by
  unfold mkSignEvmTypedDataVerifyingContractCriterion
  rw [any_not_eq_false _ _ h2, h3]
  simp [Nat.not_lt.mpr h1]

/-- `mkSolanaAddressCriterion` succeeds on valid fields. -/
theorem mkSolanaAddressCriterion_ok (a : List String) (o : String)
    (h1 : a.all matchesSolAddressRegex = true)
    (h2 : membershipOperators.contains o = true) :
    mkSolanaAddressCriterion a o = .ok ⟨a, o⟩ := by
  unfold mkSolanaAddressCriterion
  rw [any_not_eq_false _ _ h1, h2]
  simp

/-! ## Round-trip lemmas -/

/-- The ABI payload survives the wire trip. -/
theorem abi_round_trip (a : Abi) : abiFromWire (abiToWire a) = a := by
  cases a <;> rfl

/-- A valid parameter condition survives the wire trip. -/
theorem parseParam_paramToWire (p : ParamCondition) (h : validParamCondition p = true) :
    parseParam (paramToWire p) = .ok p := by
  cases p with
  | cond q =>
    rw [paramToWire, parseParam,
      mkEvmDataParameterCondition_ok q.name q.operator q.value h]
  | condList q =>
    rw [paramToWire, parseParam,
      mkEvmDataParameterConditionList_ok q.name q.operator q.values h]

/-- A list of valid parameter conditions survives the wire trip. -/
theorem parseParams_map (ps : List ParamCondition) (h : ps.all validParamCondition = true) :
    parseParams (ps.map paramToWire) = .ok ps := by
  induction ps with
  | nil => rfl
  | cons p ps ih =>
    rw [List.all_cons, Bool.and_eq_true] at h
    rw [List.map_cons, parseParams, parseParam_paramToWire p h.1, ih h.2]

/-- A valid data condition without an empty-but-present `params` list
survives the wire trip. -/
theorem parseDataCondition_toWire (c : EvmDataCondition)
    (hv : validDataCondition c = true) (hne : dataConditionParamsNotEmptyList c = true) :
    parseDataCondition (dataConditionToWire c) = .ok c := by
  obtain ⟨f, params⟩ := c
  match params with
  | none => rfl
  | some [] => exact nomatch hne
  | some (p :: ps) =>
    have hv' : (p :: ps).all validParamCondition = true := hv
    have hp : parseParams (paramToWire p :: ps.map paramToWire) = Except.ok (p :: ps) := by
      have h := parseParams_map (p :: ps) hv'
      rwa [List.map_cons] at h
    simp only [dataConditionToWire, List.map_cons, parseDataCondition, hp]

/-- A list of valid data conditions survives the wire trip. -/
theorem parseDataConditions_map (cs : List EvmDataCondition)
    (hv : cs.all validDataCondition = true)
    (hne : cs.all dataConditionParamsNotEmptyList = true) :
    parseDataConditions (cs.map dataConditionToWire) = .ok cs := by
  induction cs with
  | nil => rfl
  | cons c cs ih =>
    rw [List.all_cons, Bool.and_eq_true] at hv hne
    rw [List.map_cons, parseDataConditions, parseDataCondition_toWire c hv.1 hne.1,
      ih hv.2 hne.2]

/-- A valid typed-data condition survives the wire trip. -/
theorem parseTypedCondition_toWire (c : TypedCondition) (h : validTypedCondition c = true) :
    parseTypedCondition (typedConditionToWire c) = .ok c := by
  cases c with
  | address q =>
    have h' : (q.addresses.length ≤ 300 && q.addresses.all matchesEvmAddressRegex &&
        membershipOperators.contains q.operator) = true := h
    rw [Bool.and_eq_true, Bool.and_eq_true] at h'
    rw [typedConditionToWire, parseTypedCondition,
      mkEvmTypedAddressCondition_ok q.addresses q.operator q.path
        (by simpa using h'.1.1) h'.1.2 h'.2]
  | numerical q =>
    have h' : (pyIsdigit q.value && comparisonOperatorsOrdered.contains q.operator) = true := h
    rw [Bool.and_eq_true] at h'
    rw [typedConditionToWire, parseTypedCondition,
      mkEvmTypedNumericalCondition_ok q.value q.operator q.path h'.1 h'.2]
  | strCond q => rfl

/-- A list of valid typed-data conditions survives the wire trip. -/
theorem parseTypedConditions_map (cs : List TypedCondition)
    (h : cs.all validTypedCondition = true) :
    parseTypedConditions (cs.map typedConditionToWire) = .ok cs := by
  induction cs with
  | nil => rfl
  | cons c cs ih =>
    rw [List.all_cons, Bool.and_eq_true] at h
    rw [List.map_cons, parseTypedConditions, parseTypedCondition_toWire c h.1, ih h.2]

/-- A canonical EIP-712 entry survives the wire trip. -/
theorem entry_round_trip (d : EIP712Entry) (h : entryIsNameType d = true) :
    entryFromWire (entryToWire d) = d := by
  match d with
  | [] => exact nomatch h
  | [_] => exact nomatch h
  | (k1, v1) :: (k2, v2) :: p :: rest => exact nomatch h
  | [(k1, v1), (k2, v2)] =>
    have h' : (k1 == "name" && k2 == "type") = true := h
    rw [Bool.and_eq_true] at h'
    have h1 : k1 = "name" := by simpa using h'.1
    have h2 : k2 = "type" := by simpa using h'.2
    subst h1 h2
    rfl

/-- A list of canonical EIP-712 entries survives the wire trip. -/
theorem entries_round_trip (l : List EIP712Entry) (h : l.all entryIsNameType = true) :
    (l.map entryToWire).map entryFromWire = l := by
  induction l with
  | nil => rfl
  | cons d l ih =>
    rw [List.all_cons, Bool.and_eq_true] at h
    rw [List.map_cons, List.map_cons, entry_round_trip d h.1, ih h.2]

/-- The `types` association list of a canonical EIP-712 mapping survives the
wire trip. -/
theorem typesList_round_trip (ts : List (String × List EIP712Entry))
    (h : (ts.all fun kv => kv.2.all entryIsNameType) = true) :
    (ts.map fun kv => (kv.1, kv.2.map entryToWire)).map
      (fun kv => (kv.1, kv.2.map entryFromWire)) = ts := by
  induction ts with
  | nil => rfl
  | cons kv ts ih =>
    rw [List.all_cons, Bool.and_eq_true] at h
    simp only [List.map_cons]
    rw [entries_round_trip kv.2 h.1, ih h.2]

/-- A canonical EIP-712 `types` mapping survives the wire trip. -/
theorem types_round_trip (t : SignEvmTypedDataTypes)
    (h : typesEntriesNameType t = true) :
    typesFromWire (typesToWire t) = t := by
  obtain ⟨ts, pt⟩ := t
  have h' : (ts.all fun kv => kv.2.all entryIsNameType) = true := h
  show (⟨(ts.map fun kv => (kv.1, kv.2.map entryToWire)).map
      fun kv => (kv.1, kv.2.map entryFromWire), pt⟩ : SignEvmTypedDataTypes) = ⟨ts, pt⟩
  rw [typesList_round_trip ts h']

/-- A valid criterion whose `type` is legal for a supported operation and
whose EIP-712 entries are canonical is mapped to wire format by the request
table and mapped back to itself by the response table. -/
theorem criterion_round_trip (op : String) (c : Criterion)
    (hop : knownOperations.contains op = true)
    (htag : (allowedCriterionTags op).contains (criterionType c) = true)
    (hv : validCriterion c = true)
    (hne : criterionNoEmptyParams c = true)
    (hdict : criterionEntriesNameType c = true) :
    ∃ w, openapi_criterion_mapping op c = some w ∧
      response_criterion_mapping op w = .ok c := by
  rcases known_op_cases hop with h | h | h | h | h | h
  · subst h
    cases c with
    | ethValue q =>
      have hv' : (pyIsdigit q.ethValue && comparisonOperatorsEth.contains q.operator) = true := hv
      rw [Bool.and_eq_true] at hv'
      refine ⟨.ethValue ⟨q.ethValue, q.operator⟩, rfl, ?_⟩
      show (match mkEthValueCriterion q.ethValue q.operator with
            | Except.ok d => Except.ok (Criterion.ethValue d)
            | Except.error e => Except.error e) = Except.ok (Criterion.ethValue q)
      rw [mkEthValueCriterion_ok q.ethValue q.operator hv'.1 hv'.2]
    | evmAddress q =>
      have hv' : (q.addresses.length ≤ 300 && q.addresses.all matchesEvmAddressRegex &&
          membershipOperators.contains q.operator) = true := hv
      rw [Bool.and_eq_true, Bool.and_eq_true] at hv'
      refine ⟨.evmAddress ⟨q.addresses, q.operator⟩, rfl, ?_⟩
      show (match mkEvmAddressCriterion q.addresses q.operator with
            | Except.ok d => Except.ok (Criterion.evmAddress d)
            | Except.error e => Except.error e) = Except.ok (Criterion.evmAddress q)
      rw [mkEvmAddressCriterion_ok q.addresses q.operator
        (by simpa using hv'.1.1) hv'.1.2 hv'.2]
    | evmNetwork q =>
      have hv' : ((q.networks.all fun n => allowedNetworks.contains n) &&
          membershipOperators.contains q.operator) = true := hv
      rw [Bool.and_eq_true] at hv'
      refine ⟨.evmNetwork ⟨q.networks, q.operator⟩, rfl, ?_⟩
      show (match mkEvmNetworkCriterion q.networks q.operator with
            | Except.ok d => Except.ok (Criterion.evmNetwork d)
            | Except.error e => Except.error e) = Except.ok (Criterion.evmNetwork q)
      rw [mkEvmNetworkCriterion_ok q.networks q.operator hv'.1 hv'.2]
    | evmData q =>
      have hv' : q.conditions.all validDataCondition = true := hv
      have hne' : q.conditions.all dataConditionParamsNotEmptyList = true := hne
      have hd := parseDataConditions_map q.conditions hv' hne'
      refine ⟨.evmData ⟨abiToWire q.abi, q.conditions.map dataConditionToWire⟩, rfl, ?_⟩
      show (match parseDataConditions (q.conditions.map dataConditionToWire) with
            | Except.ok ds =>
                Except.ok (Criterion.evmData ⟨abiFromWire (abiToWire q.abi), ds⟩)
            | Except.error e => Except.error e) = Except.ok (Criterion.evmData q)
      simp only [abi_round_trip]
      rw [hd]
    | evmMessage q => exact nomatch htag
    | evmTypedDataField q => exact nomatch htag
    | evmTypedDataVerifyingContract q => exact nomatch htag
    | solAddress q => exact nomatch htag
  · subst h
    cases c with
    | ethValue q =>
      have hv' : (pyIsdigit q.ethValue && comparisonOperatorsEth.contains q.operator) = true := hv
      rw [Bool.and_eq_true] at hv'
      refine ⟨.ethValue ⟨q.ethValue, q.operator⟩, rfl, ?_⟩
      show (match mkEthValueCriterion q.ethValue q.operator with
            | Except.ok d => Except.ok (Criterion.ethValue d)
            | Except.error e => Except.error e) = Except.ok (Criterion.ethValue q)
      rw [mkEthValueCriterion_ok q.ethValue q.operator hv'.1 hv'.2]
    | evmAddress q =>
      have hv' : (q.addresses.length ≤ 300 && q.addresses.all matchesEvmAddressRegex &&
          membershipOperators.contains q.operator) = true := hv
      rw [Bool.and_eq_true, Bool.and_eq_true] at hv'
      refine ⟨.evmAddress ⟨q.addresses, q.operator⟩, rfl, ?_⟩
      show (match mkEvmAddressCriterion q.addresses q.operator with
            | Except.ok d => Except.ok (Criterion.evmAddress d)
            | Except.error e => Except.error e) = Except.ok (Criterion.evmAddress q)
      rw [mkEvmAddressCriterion_ok q.addresses q.operator
        (by simpa using hv'.1.1) hv'.1.2 hv'.2]
    | evmNetwork q => exact nomatch htag
    | evmData q =>
      have hv' : q.conditions.all validDataCondition = true := hv
      have hne' : q.conditions.all dataConditionParamsNotEmptyList = true := hne
      have hd := parseDataConditions_map q.conditions hv' hne'
      refine ⟨.evmData ⟨abiToWire q.abi, q.conditions.map dataConditionToWire⟩, rfl, ?_⟩
      show (match parseDataConditions (q.conditions.map dataConditionToWire) with
            | Except.ok ds =>
                Except.ok (Criterion.evmData ⟨abiFromWire (abiToWire q.abi), ds⟩)
            | Except.error e => Except.error e) = Except.ok (Criterion.evmData q)
      simp only [abi_round_trip]
      rw [hd]
    | evmMessage q => exact nomatch htag
    | evmTypedDataField q => exact nomatch htag
    | evmTypedDataVerifyingContract q => exact nomatch htag
    | solAddress q => exact nomatch htag
  · subst h
    cases c <;> exact nomatch htag
  · subst h
    cases c with
    | ethValue q => exact nomatch htag
    | evmAddress q => exact nomatch htag
    | evmNetwork q => exact nomatch htag
    | evmData q => exact nomatch htag
    | evmMessage q => exact ⟨.evmMessage ⟨q.matchRe⟩, rfl, rfl⟩
    | evmTypedDataField q => exact nomatch htag
    | evmTypedDataVerifyingContract q => exact nomatch htag
    | solAddress q => exact nomatch htag
  · subst h
    cases c with
    | ethValue q => exact nomatch htag
    | evmAddress q => exact nomatch htag
    | evmNetwork q => exact nomatch htag
    | evmData q => exact nomatch htag
    | evmMessage q => exact nomatch htag
    | evmTypedDataField q =>
      have hv' : q.conditions.all validTypedCondition = true := hv
      have hd := parseTypedConditions_map q.conditions hv'
      have hdict' : typesEntriesNameType q.types = true := hdict
      refine ⟨.evmTypedDataField
        ⟨typesToWire q.types, q.conditions.map typedConditionToWire⟩, rfl, ?_⟩
      show (match parseTypedConditions (q.conditions.map typedConditionToWire) with
            | Except.ok ds =>
                Except.ok (Criterion.evmTypedDataField
                  ⟨typesFromWire (typesToWire q.types), ds⟩)
            | Except.error e => Except.error e) =
          Except.ok (Criterion.evmTypedDataField q)
      simp only [types_round_trip q.types hdict']
      rw [hd]
    | evmTypedDataVerifyingContract q =>
      have hv' : (q.addresses.length ≤ 300 && q.addresses.all matchesEvmAddressRegex &&
          membershipOperators.contains q.operator) = true := hv
      rw [Bool.and_eq_true, Bool.and_eq_true] at hv'
      refine ⟨.evmTypedDataVerifyingContract ⟨q.addresses, q.operator⟩, rfl, ?_⟩
      show (match mkSignEvmTypedDataVerifyingContractCriterion q.addresses q.operator with
            | Except.ok d => Except.ok (Criterion.evmTypedDataVerifyingContract d)
            | Except.error e => Except.error e) =
          Except.ok (Criterion.evmTypedDataVerifyingContract q)
      rw [mkSignEvmTypedDataVerifyingContractCriterion_ok q.addresses q.operator
        (by simpa using hv'.1.1) hv'.1.2 hv'.2]
    | solAddress q => exact nomatch htag
  · subst h
    cases c with
    | ethValue q => exact nomatch htag
    | evmAddress q => exact nomatch htag
    | evmNetwork q => exact nomatch htag
    | evmData q => exact nomatch htag
    | evmMessage q => exact nomatch htag
    | evmTypedDataField q => exact nomatch htag
    | evmTypedDataVerifyingContract q => exact nomatch htag
    | solAddress q =>
      have hv' : (q.addresses.all matchesSolAddressRegex &&
          membershipOperators.contains q.operator) = true := hv
      rw [Bool.and_eq_true] at hv'
      refine ⟨.solAddress ⟨q.addresses, q.operator⟩, rfl, ?_⟩
      show (match mkSolanaAddressCriterion q.addresses q.operator with
            | Except.ok d => Except.ok (Criterion.solAddress d)
            | Except.error e => Except.error e) = Except.ok (Criterion.solAddress q)
      rw [mkSolanaAddressCriterion_ok q.addresses q.operator hv'.1 hv'.2]

/-- A list of valid, legally-tagged criteria with canonical EIP-712 entries
survives the wire trip. -/
theorem criteria_round_trip (op : String) (hop : knownOperations.contains op = true)
    (cs : List Criterion)
    (hall : (cs.all fun c =>
      (allowedCriterionTags op).contains (criterionType c) && validCriterion c) = true)
    (hne : cs.all criterionNoEmptyParams = true)
    (hdict : cs.all criterionEntriesNameType = true) :
    ∃ ws, buildCriteria op cs = .ok ws ∧ parseCriteria op ws = .ok cs := by
  induction cs with
  | nil => exact ⟨[], rfl, rfl⟩
  | cons c cs ih =>
    rw [List.all_cons, Bool.and_eq_true] at hall hne hdict
    rw [Bool.and_eq_true] at hall
    obtain ⟨⟨htag, hv⟩, hrest⟩ := hall
    obtain ⟨w, hw, hwp⟩ := criterion_round_trip op c hop htag hv hne.1 hdict.1
    obtain ⟨ws, hws, hwsp⟩ := ih hrest hne.2 hdict.2
    refine ⟨w :: ws, ?_, ?_⟩
    · simp only [buildCriteria]
      rw [hw]
      show (match buildCriteria op cs with
            | Except.ok ws' => Except.ok (w :: ws')
            | Except.error e => Except.error e) = Except.ok (w :: ws)
      rw [hws]
    · simp only [parseCriteria]
      rw [hwp]
      show (match parseCriteria op ws with
            | Except.ok cs' => Except.ok (c :: cs')
            | Except.error e => Except.error e) = Except.ok (c :: cs)
      rw [hwsp]

/-- A valid rule without empty-but-present parameter lists and with
canonical EIP-712 entries is transformed to a wire rule by the request
transformer body and back to itself by the response transformer body. -/
theorem rule_round_trip (r : Rule) (hv : validRule r = true)
    (hne : ruleNoEmptyParams r = true)
    (hdict : ruleEntriesNameType r = true) :
    ∃ w, buildRequestRule r = .ok w ∧ parseResponseRule w = .ok r := by
  obtain ⟨a, op, crit⟩ := r
  match crit with
  | none =>
    have hv' : (validAction a && knownOperations.contains op &&
        (op == "signEvmHash")) = true := hv
    rw [Bool.and_eq_true, Bool.and_eq_true] at hv'
    obtain ⟨⟨ha, hop⟩, hh⟩ := hv'
    have hopeq : op = "signEvmHash" := by simpa using hh
    subst hopeq
    refine ⟨⟨a, "signEvmHash", none⟩, rfl, ?_⟩
    show (if validAction a = true then
            Except.ok (⟨a, "signEvmHash", none⟩ : Rule)
          else Except.error (TransformError.validationError
            "action must be one of reject, accept")) =
        Except.ok (⟨a, "signEvmHash", none⟩ : Rule)
    rw [if_pos ha]
  | some cs =>
    have hv' : (validAction a && knownOperations.contains op &&
        ((op != "signEvmHash") && cs.all fun c =>
          (allowedCriterionTags op).contains (criterionType c) && validCriterion c)) = true := hv
    rw [Bool.and_eq_true, Bool.and_eq_true, Bool.and_eq_true] at hv'
    obtain ⟨⟨ha, hop⟩, hhash, hall⟩ := hv'
    have hne' : cs.all criterionNoEmptyParams = true := hne
    have hdict' : cs.all criterionEntriesNameType = true := hdict
    have hhash' : ¬((op == "signEvmHash") = true) := by
      simpa using hhash
    obtain ⟨ws, hws, hwsp⟩ := criteria_round_trip op hop cs hall hne' hdict'
    refine ⟨⟨a, op, some ws⟩, ?_, ?_⟩
    · unfold buildRequestRule
      rw [if_pos hop]
      show (match buildCriteria op cs with
            | Except.ok ws' => Except.ok (⟨a, op, some ws'⟩ : Wire.Rule)
            | Except.error e => Except.error e) = Except.ok (⟨a, op, some ws⟩ : Wire.Rule)
      rw [hws]
    · unfold parseResponseRule
      rw [if_pos hop]
      show (match parseCriteria op ws with
            | Except.error e => Except.error e
            | Except.ok cs' =>
              if validAction a = true then
                if (op == "signEvmHash") = true then Except.ok (⟨a, op, none⟩ : Rule)
                else Except.ok (⟨a, op, some cs'⟩ : Rule)
              else Except.error (TransformError.validationError
                "action must be one of reject, accept")) =
          Except.ok (⟨a, op, some cs⟩ : Rule)
      rw [hwsp]
      show (if validAction a = true then
              if (op == "signEvmHash") = true then Except.ok (⟨a, op, none⟩ : Rule)
              else Except.ok (⟨a, op, some cs⟩ : Rule)
            else Except.error (TransformError.validationError
              "action must be one of reject, accept")) =
          Except.ok (⟨a, op, some cs⟩ : Rule)
      rw [if_pos ha, if_neg hhash']

/-- The first error raised while processing an element aborts `mapExcept`
on any list containing that element after successfully processed ones. -/
theorem mapExcept_fail_fast (f : α → Except ε β) (pre post : List α) (a : α) (e : ε)
    (hpre : exceptIsOk (mapExcept f pre) = true)
    (ha : mapExcept f [a] = .error e) :
    mapExcept f (pre ++ a :: post) = .error e := by
  have ha' : f a = .error e := by
    cases hfa : f a with
    | ok b =>
      simp only [mapExcept] at ha
      rw [hfa] at ha
      exact nomatch ha
    | error e' =>
      simp only [mapExcept] at ha
      rw [hfa] at ha
      have h2 : (Except.error e' : Except ε (List β)) = .error e := ha
      injection h2 with h3
      exact congrArg Except.error h3
  induction pre with
  | nil =>
    simp only [List.nil_append, mapExcept]
    rw [ha']
  | cons x xs ih =>
    cases hfx : f x with
    | error e' =>
      simp only [mapExcept] at hpre
      rw [hfx] at hpre
      exact nomatch hpre
    | ok b =>
      simp only [mapExcept] at hpre ⊢
      rw [hfx] at hpre ⊢
      cases hxs : mapExcept f xs with
      | error e2 =>
        rw [hxs] at hpre
        exact nomatch hpre
      | ok bs =>
        have hok : exceptIsOk (mapExcept f xs) = true := by rw [hxs]; rfl
        show (match mapExcept f (xs ++ a :: post) with
              | Except.ok bs => Except.ok (b :: bs)
              | Except.error er => Except.error er) = Except.error e
        rw [ih hok]

/-- `mapExcept` on a one-element list is the element's own result. -/
theorem mapExcept_singleton (f : α → Except ε β) (a : α) :
    mapExcept f [a] = match f a with
      | .ok b => .ok [b]
      | .error e => .error e := rfl

/-- `mapExcept` on a one-element list propagates the element's success. -/
theorem mapExcept_singleton_ok (f : α → Except ε β) (a : α) (b : β)
    (h : f a = .ok b) : mapExcept f [a] = .ok [b] := by
  rw [mapExcept_singleton, h]

/-- `mapExcept` on a one-element list propagates the element's error. -/
theorem mapExcept_singleton_error (f : α → Except ε β) (a : α) (e : ε)
    (h : f a = .error e) : mapExcept f [a] = .error e := by
  rw [mapExcept_singleton, h]

/-- The request table has an entry for a criterion exactly when its `type`
tag is in the operation's allowed set, for each supported operation. -/
theorem mapping_isSome_iff_allowed (op : String) (c : Criterion)
    (hop : knownOperations.contains op = true) :
    (openapi_criterion_mapping op c).isSome =
      (allowedCriterionTags op).contains (criterionType c) := by
  rcases known_op_cases hop with h | h | h | h | h | h <;> subst h <;> cases c <;> rfl

/-- Every error of the criteria loop of the request transformer is an
`UnknownCriterionType` error naming the operation. -/
theorem buildCriteria_error_shape (op : String) (cs : List Criterion) (e : TransformError)
    (h : buildCriteria op cs = .error e) :
    ∃ t, e = .unknownCriterionType t (some op) := by
  induction cs with
  | nil => exact nomatch h
  | cons c cs ih =>
    revert h
    simp only [buildCriteria]
    cases hm : openapi_criterion_mapping op c with
    | none =>
      intro h
      have h2 : (Except.error (TransformError.unknownCriterionType (criterionType c) (some op)) :
          Except TransformError (List Wire.Criterion)) = .error e := h
      injection h2 with h3
      exact ⟨criterionType c, h3.symm⟩
    | some w =>
      intro h
      cases hb : buildCriteria op cs with
      | ok ws => rw [hb] at h; exact nomatch h
      | error e2 =>
        rw [hb] at h
        have h2 : (Except.error e2 : Except TransformError (List Wire.Criterion)) = .error e := h
        injection h2 with h3
        exact ih (h3 ▸ hb)

/-- The criteria loop of the request transformer fails exactly when some
criterion's `type` tag is outside the operation's allowed set. -/
theorem buildCriteria_not_ok_iff (op : String) (hop : knownOperations.contains op = true)
    (cs : List Criterion) :
    exceptIsOk (buildCriteria op cs) = false ↔
      ∃ c ∈ cs, (allowedCriterionTags op).contains (criterionType c) = false := by
  induction cs with
  | nil =>
    constructor
    · intro h; exact nomatch h
    · rintro ⟨c, hc, _⟩; exact absurd hc (List.not_mem_nil c)
  | cons c cs ih =>
    simp only [buildCriteria]
    cases hm : openapi_criterion_mapping op c with
    | none =>
      have hbad : (allowedCriterionTags op).contains (criterionType c) = false := by
        have hs := mapping_isSome_iff_allowed op c hop
        rw [hm] at hs
        exact hs.symm
      constructor
      · intro _; exact ⟨c, List.mem_cons_self c cs, hbad⟩
      · intro _; rfl
    | some w =>
      have hgood : (allowedCriterionTags op).contains (criterionType c) = true := by
        have hs := mapping_isSome_iff_allowed op c hop
        rw [hm] at hs
        exact hs.symm
      show exceptIsOk (match buildCriteria op cs with
            | Except.ok ws => Except.ok (w :: ws)
            | Except.error e => Except.error e) = false ↔ _
      cases hb : buildCriteria op cs with
      | ok ws =>
        constructor
        · intro hcontra; exact nomatch hcontra
        · rintro ⟨c', hc', hbad⟩
          rcases List.mem_cons.mp hc' with rfl | hc'
          · rw [hgood] at hbad; exact nomatch hbad
          · have hfalse : exceptIsOk (buildCriteria op cs) = false := ih.mpr ⟨c', hc', hbad⟩
            rw [hb] at hfalse
            exact nomatch hfalse
      | error e2 =>
        constructor
        · intro _
          have hfalse : exceptIsOk (buildCriteria op cs) = false := by rw [hb]; rfl
          obtain ⟨c', hc', hbad⟩ := ih.mp hfalse
          exact ⟨c', List.mem_cons_of_mem c hc', hbad⟩
        · intro _; rfl

/-- For a supported operation, the request transformer body of a rule with a
`criteria` attribute reduces to the criteria loop. -/
theorem buildRequestRule_some_criteria (r : Rule) (cs : List Criterion)
    (hop : knownOperations.contains r.operation = true) (hcr : r.criteria = some cs) :
    buildRequestRule r = match buildCriteria r.operation cs with
      | .ok ws => .ok ⟨r.action, r.operation, some ws⟩
      | .error e => .error e := by
  unfold buildRequestRule
  rw [if_pos hop, hcr]

/-- For a supported operation, any error of the request transformer body is
an `UnknownCriterionType` error. -/
theorem buildRequestRule_error_known (r : Rule)
    (hop : knownOperations.contains r.operation = true)
    (e : TransformError) (h : buildRequestRule r = .error e) :
    ∃ t, e = .unknownCriterionType t (some r.operation) := by
  unfold buildRequestRule at h
  rw [if_pos hop] at h
  cases hcr : r.criteria with
  | none => rw [hcr] at h; exact nomatch h
  | some cs =>
    rw [hcr] at h
    have h' : (match buildCriteria r.operation cs with
        | Except.ok ws => Except.ok (⟨r.action, r.operation, some ws⟩ : Wire.Rule)
        | Except.error e => Except.error e) = Except.error e := h
    cases hb : buildCriteria r.operation cs with
    | ok ws => rw [hb] at h'; exact nomatch h'
    | error e2 =>
      rw [hb] at h'
      have h2 : (Except.error e2 : Except TransformError Wire.Rule) = .error e := h'
      injection h2 with h3
      exact buildCriteria_error_shape r.operation cs e (h3 ▸ hb)

/-- `map_request_rules_to_openapi_format` is the rule loop. -/
theorem map_request_eq (rules : List Rule) :
    map_request_rules_to_openapi_format rules = mapExcept buildRequestRule rules := rfl

/-- `map_openapi_rules_to_response_format` is the wire-rule loop. -/
theorem map_response_eq (rules : List Wire.Rule) :
    map_openapi_rules_to_response_format rules = mapExcept parseResponseRule rules := rfl

/-! ## Claim theorems -/

/-- Claim C1 (amended): for every valid user-facing rule whose operation is
one of the six supported operations and whose criteria all have legal types,
in which no `EvmDataCondition` carries an empty-but-present `params` list
and every EIP-712 type-definition entry is exactly a `name`/`type` dict,
transforming to wire format and back yields the original rule:
`from_wire(to_wire([r])) = [r]`. -/
theorem claim_c1_round_trip (r : Rule) (hv : validRule r = true)
    (hne : ruleNoEmptyParams r = true)
    (hdict : ruleEntriesNameType r = true) :
    (map_request_rules_to_openapi_format [r]).bind
      map_openapi_rules_to_response_format = .ok [r] := by
  obtain ⟨w, hw, hwp⟩ := rule_round_trip r hv hne hdict
  have h1 : map_request_rules_to_openapi_format [r] = .ok [w] :=
    mapExcept_singleton_ok buildRequestRule r w hw
  rw [h1]
  show map_openapi_rules_to_response_format [w] = .ok [r]
  exact mapExcept_singleton_ok parseResponseRule w r hwp

/-- Claim C1, witness: the round-trip theorem instantiated at a valid
`sendEvmTransaction` rule exercising every criterion family of that
operation, and at the `signEvmTypedData` rule with a canonical EIP-712
entry. -/
theorem claim_c1_round_trip_witness :
    (validRule sampleSendRule = true ∧ ruleNoEmptyParams sampleSendRule = true ∧
     ruleEntriesNameType sampleSendRule = true ∧
     (map_request_rules_to_openapi_format [sampleSendRule]).bind
       map_openapi_rules_to_response_format = .ok [sampleSendRule]) ∧
    (validRule typedDataScenarioRule = true ∧
     ruleNoEmptyParams typedDataScenarioRule = true ∧
     ruleEntriesNameType typedDataScenarioRule = true ∧
     (map_request_rules_to_openapi_format [typedDataScenarioRule]).bind
       map_openapi_rules_to_response_format = .ok [typedDataScenarioRule]) :=
  ⟨⟨by decide, by decide, by decide,
    claim_c1_round_trip sampleSendRule (by decide) (by decide) (by decide)⟩,
   ⟨by decide, by decide, by decide,
    claim_c1_round_trip typedDataScenarioRule (by decide) (by decide) (by decide)⟩⟩

/-- Claim C1, counterexamples to the claim as stated.  First:
`emptyParamsRule` is a valid user-facing rule (its single `evmData`
criterion holds one condition with `params = []`, which pydantic accepts),
yet `from_wire(to_wire([r])) ≠ [r]` — the transformers' `if cond.params
else None` guard collapses the empty list to `None`.  Second:
`extraKeyRule` is a valid `signEvmTypedData` rule (free of `EvmData`
conditions) whose EIP-712 entry carries an extra `"foo"` key — a legal
`dict[str, str]` — yet the response transformer rebuilds the entry with only
its `name` and `type` keys, so the round trip drops `"foo"` and the result
differs from the original under Python dict equality (the key sets
differ). -/
theorem claim_c1_counterexample :
    (validRule emptyParamsRule = true ∧
     (map_request_rules_to_openapi_format [emptyParamsRule]).bind
       map_openapi_rules_to_response_format ≠ .ok [emptyParamsRule] ∧
     (map_request_rules_to_openapi_format [emptyParamsRule]).bind
       map_openapi_rules_to_response_format = .ok [emptyParamsRuleCollapsed] ∧
     emptyParamsRuleCollapsed ≠ emptyParamsRule) ∧
    (validRule extraKeyRule = true ∧ ruleNoEmptyParams extraKeyRule = true ∧
     (map_request_rules_to_openapi_format [extraKeyRule]).bind
       map_openapi_rules_to_response_format ≠ .ok [extraKeyRule] ∧
     (map_request_rules_to_openapi_format [extraKeyRule]).bind
       map_openapi_rules_to_response_format = .ok [extraKeyRuleCollapsed] ∧
     extraKeyRuleCollapsed ≠ extraKeyRule) := by decide

/-- Claim C2: the request transformer fails with `UnknownOperation` on a rule
whose operation tag is not one of the six supported operations, and never
raises that failure for a rule whose operation is supported. -/
theorem claim_c2_unknown_operation (r : Rule) :
    (knownOperations.contains r.operation = false →
      map_request_rules_to_openapi_format [r] =
        .error (.unknownOperation r.operation)) ∧
    (knownOperations.contains r.operation = true →
      isUnknownOperationError (map_request_rules_to_openapi_format [r]) = false) := by
  constructor
  · intro h
    have hb : buildRequestRule r = .error (.unknownOperation r.operation) := by
      unfold buildRequestRule
      rw [if_neg (show ¬(knownOperations.contains r.operation = true) by
        rw [h]; exact Bool.false_ne_true)]
    exact mapExcept_singleton_error buildRequestRule r _ hb
  · intro hop
    cases hb : buildRequestRule r with
    | ok w =>
      rw [show map_request_rules_to_openapi_format [r] = .ok [w] from
        mapExcept_singleton_ok buildRequestRule r w hb]
      rfl
    | error e =>
      obtain ⟨t, rfl⟩ := buildRequestRule_error_known r hop e hb
      rw [show map_request_rules_to_openapi_format [r] =
          .error (.unknownCriterionType t (some r.operation)) from
        mapExcept_singleton_error buildRequestRule r _ hb]
      rfl

/-- Claim C2, witness: the rule with operation `"unknownOp"` fails with
`UnknownOperation`. -/
theorem claim_c2_unknown_operation_witness :
    knownOperations.contains unknownOpRule.operation = false ∧
    map_request_rules_to_openapi_format [unknownOpRule] =
      .error (.unknownOperation "unknownOp") :=
  ⟨by decide, (claim_c2_unknown_operation unknownOpRule).1 (by decide)⟩

/-- Claim C3: for a rule with a supported operation and a `criteria` list,
the request transformer fails with `UnknownCriterionType` exactly when some
criterion's `type` tag is outside the operation's allowed set of the
legality table `allowedCriterionTags`. -/
theorem claim_c3_unknown_criterion_type (r : Rule) (cs : List Criterion)
    (hop : knownOperations.contains r.operation = true)
    (hcr : r.criteria = some cs) :
    isUnknownCriterionTypeError (map_request_rules_to_openapi_format [r]) = true ↔
      ∃ c ∈ cs, (allowedCriterionTags r.operation).contains (criterionType c) = false := by
  rw [map_request_eq]
  cases hb : buildCriteria r.operation cs with
  | ok ws =>
    have hbr : buildRequestRule r = .ok ⟨r.action, r.operation, some ws⟩ := by
      rw [buildRequestRule_some_criteria r cs hop hcr, hb]
    rw [mapExcept_singleton_ok buildRequestRule r _ hbr]
    constructor
    · intro hcontra; exact nomatch hcontra
    · rintro ⟨c, hc, hbad⟩
      have hfalse : exceptIsOk (buildCriteria r.operation cs) = false :=
        (buildCriteria_not_ok_iff r.operation hop cs).mpr ⟨c, hc, hbad⟩
      rw [hb] at hfalse
      exact nomatch hfalse
  | error e =>
    have hbr : buildRequestRule r = .error e := by
      rw [buildRequestRule_some_criteria r cs hop hcr, hb]
    rw [mapExcept_singleton_error buildRequestRule r _ hbr]
    obtain ⟨t, rfl⟩ := buildCriteria_error_shape r.operation cs e hb
    constructor
    · intro _
      have hfalse : exceptIsOk (buildCriteria r.operation cs) = false := by rw [hb]; rfl
      exact (buildCriteria_not_ok_iff r.operation hop cs).mp hfalse
    · intro _; rfl

/-- Claim C3, witness: a `signEvmTransaction` rule with an `evmNetwork`
criterion fails with `UnknownCriterionType`. -/
theorem claim_c3_unknown_criterion_type_witness :
    isUnknownCriterionTypeError
      (map_request_rules_to_openapi_format [networkUnderSignRule]) = true :=
  (claim_c3_unknown_criterion_type networkUnderSignRule
      [.evmNetwork ⟨["base"], "in"⟩] (by decide) rfl).mpr
    ⟨.evmNetwork ⟨["base"], "in"⟩, by decide, by decide⟩

/-- Claim C4: with a valid operator, constructing an `EvmAddressCriterion`
raises a validation error if and only if some address fails the EVM address
regular expression or the list has more than 300 addresses. -/
theorem claim_c4_evm_address_validation (a : List String) (o : String)
    (ho : membershipOperators.contains o = true) :
    exceptIsOk (mkEvmAddressCriterion a o) = false ↔
      (∃ addr ∈ a, matchesEvmAddressRegex addr = false) ∨ 300 < a.length := by
  unfold mkEvmAddressCriterion
  by_cases hlen : a.length > 300
  · rw [if_pos hlen]
    constructor
    · intro _; exact Or.inr hlen
    · intro _; rfl
  · rw [if_neg hlen]
    by_cases hany : (a.any fun addr => !matchesEvmAddressRegex addr) = true
    · rw [if_pos hany]
      constructor
      · intro _
        obtain ⟨addr, ha, hba⟩ := List.any_eq_true.mp hany
        exact Or.inl ⟨addr, ha, by simpa using hba⟩
      · intro _; rfl
    · rw [if_neg hany]
      rw [ho]
      constructor
      · intro hcontra; exact nomatch hcontra
      · rintro (⟨addr, ha, hbad⟩ | hlen2)
        · exact absurd (List.any_eq_true.mpr ⟨addr, ha, by simp [hbad]⟩) hany
        · exact absurd hlen2 hlen

/-- Claim C4, witness: a 41-character address is rejected, and a list of 301
well-formed addresses is rejected. -/
theorem claim_c4_evm_address_validation_witness :
    exceptIsOk (mkEvmAddressCriterion [shortEvmAddress] "in") = false ∧
    exceptIsOk (mkEvmAddressCriterion (List.replicate 301 goodEvmAddress) "in") = false :=
  ⟨(claim_c4_evm_address_validation [shortEvmAddress] "in" (by decide)).mpr
      (Or.inl ⟨shortEvmAddress, by decide, by decide⟩),
   (claim_c4_evm_address_validation (List.replicate 301 goodEvmAddress) "in" (by decide)).mpr
      (Or.inr (by decide))⟩

/-- Claim C5: constructing an `EthValueCriterion` whose value contains a
non-digit character raises a validation error, and construction succeeds on
digit-only values such as `"0"` (with a valid operator). -/
theorem claim_c5_eth_value_validation :
    (∀ v o, (∃ ch ∈ v.data, pyCharIsDigit ch = false) →
      exceptIsOk (mkEthValueCriterion v o) = false) ∧
    (∀ o, comparisonOperatorsEth.contains o = true →
      mkEthValueCriterion "0" o = .ok ⟨"0", o⟩) := by
  constructor
  · rintro v o ⟨ch, hch, hbad⟩
    have hfalse : pyIsdigit v = false := by
      unfold pyIsdigit
      have hall : v.data.all pyCharIsDigit = false := by
        rw [← Bool.not_eq_true]
        intro hcontra
        rw [List.all_eq_true] at hcontra
        rw [hcontra ch hch] at hbad
        exact nomatch hbad
      rw [hall, Bool.and_false]
    unfold mkEthValueCriterion
    rw [hfalse]
    rfl
  · intro o ho
    exact mkEthValueCriterion_ok "0" o (by decide) ho

/-- Claim C5, witness: `"12a"` is rejected, `"0"` is accepted. -/
theorem claim_c5_eth_value_validation_witness :
    exceptIsOk (mkEthValueCriterion "12a" ">") = false ∧
    mkEthValueCriterion "0" ">" = .ok ⟨"0", ">"⟩ :=
  ⟨claim_c5_eth_value_validation.1 "12a" ">" ⟨'a', by decide, by decide⟩,
   claim_c5_eth_value_validation.2 ">" (by decide)⟩

/-- Claim C6: constructing an `EvmNetworkCriterion` with a network outside
`{base-sepolia, base}` raises a validation error, and construction succeeds
when every network is drawn from that set (with a valid operator). -/
theorem claim_c6_evm_network_validation :
    (∀ n o, (∃ net ∈ n, allowedNetworks.contains net = false) →
      exceptIsOk (mkEvmNetworkCriterion n o) = false) ∧
    (∀ n o, (n.all fun net => allowedNetworks.contains net) = true →
      membershipOperators.contains o = true →
      mkEvmNetworkCriterion n o = .ok ⟨n, o⟩) := by
  constructor
  · rintro n o ⟨net, hnet, hbad⟩
    unfold mkEvmNetworkCriterion
    rw [if_pos (List.any_eq_true.mpr ⟨net, hnet, by rw [hbad]; exact Bool.not_false⟩)]
    rfl
  · intro n o h1 h2
    exact mkEvmNetworkCriterion_ok n o h1 h2

/-- Claim C6, witness: `"mainnet"` is rejected; `["base", "base-sepolia"]`
with operator `"in"` is accepted. -/
theorem claim_c6_evm_network_validation_witness :
    exceptIsOk (mkEvmNetworkCriterion ["mainnet"] "in") = false ∧
    mkEvmNetworkCriterion ["base", "base-sepolia"] "in" =
      .ok ⟨["base", "base-sepolia"], "in"⟩ :=
  ⟨claim_c6_evm_network_validation.1 ["mainnet"] "in" ⟨"mainnet", by decide, by decide⟩,
   claim_c6_evm_network_validation.2 ["base", "base-sepolia"] "in" (by decide) (by decide)⟩

/-- Claim C7: every `signEvmHash` rule (no `criteria` attribute) is emitted
as a bare wire rule carrying only the action and the operation, with no
criteria. -/
theorem claim_c7_sign_evm_hash (r : Rule) (hop : r.operation = "signEvmHash")
    (hcr : r.criteria = none) :
    map_request_rules_to_openapi_format [r] = .ok [⟨r.action, "signEvmHash", none⟩] := by
  obtain ⟨a, op, crit⟩ := r
  have hop' : op = "signEvmHash" := hop
  have hcr' : crit = none := hcr
  subst hop' hcr'
  rfl

/-- Claim C7, witness: a concrete `signEvmHash` rule. -/
theorem claim_c7_sign_evm_hash_witness :
    map_request_rules_to_openapi_format [⟨"accept", "signEvmHash", none⟩] =
      .ok [⟨"accept", "signEvmHash", none⟩] :=
  claim_c7_sign_evm_hash ⟨"accept", "signEvmHash", none⟩ rfl rfl

/-- Claim C8: both transformers are fail-fast and atomic: whenever one rule
of the input list fails on its own, the whole call on any list containing it
after successfully processed rules raises that error and returns no list. -/
theorem claim_c8_fail_fast :
    (∀ (pre post : List Rule) (r : Rule) (e : TransformError),
        exceptIsOk (map_request_rules_to_openapi_format pre) = true →
        map_request_rules_to_openapi_format [r] = .error e →
        map_request_rules_to_openapi_format (pre ++ r :: post) = .error e) ∧
    (∀ (pre post : List Wire.Rule) (w : Wire.Rule) (e : TransformError),
        exceptIsOk (map_openapi_rules_to_response_format pre) = true →
        map_openapi_rules_to_response_format [w] = .error e →
        map_openapi_rules_to_response_format (pre ++ w :: post) = .error e) :=
  ⟨fun pre post r e h1 h2 => mapExcept_fail_fast buildRequestRule pre post r e h1 h2,
   fun pre post w e h1 h2 => mapExcept_fail_fast parseResponseRule pre post w e h1 h2⟩

/-- Claim C8, witness: in both directions, a list whose first rule is valid
and whose second rule has an unknown operation fails as a whole with that
rule's `UnknownOperation` error. -/
theorem claim_c8_fail_fast_witness :
    map_request_rules_to_openapi_format
      ([⟨"accept", "signEvmHash", none⟩] ++ unknownOpRule :: []) =
      .error (.unknownOperation "unknownOp") ∧
    map_openapi_rules_to_response_format
      ([⟨"accept", "signEvmHash", none⟩] ++ (⟨"accept", "badOp", none⟩ : Wire.Rule) :: []) =
      .error (.unknownOperation "badOp") :=
  ⟨claim_c8_fail_fast.1 [⟨"accept", "signEvmHash", none⟩] [] unknownOpRule _
      (by decide) (by decide),
   claim_c8_fail_fast.2 [⟨"accept", "signEvmHash", none⟩] [] ⟨"accept", "badOp", none⟩ _
      (by decide) (by decide)⟩

/-- Claim C9: the `signEvmTypedData` rule with one `evmTypedDataField`
criterion holding an address condition followed by a numerical condition
transforms to the wire rule with the two conditions in the same order, each
mapped to its matching wire sub-variant, and transforms back to the original
rule. -/
theorem claim_c9_typed_data_scenario :
    map_request_rules_to_openapi_format [typedDataScenarioRule] =
      .ok [typedDataScenarioWireRule] ∧
    map_openapi_rules_to_response_format [typedDataScenarioWireRule] =
      .ok [typedDataScenarioRule] := by
  exact ⟨by decide, by decide⟩

/-- Claim C10: the digits-only check is Python's Unicode `str.isdigit`: the
empty string is rejected at construction, while strings of non-ASCII digit
characters (Arabic-Indic `"١٢٣"`, superscript `"²"`) are accepted by
`EthValueCriterion` and `EvmTypedNumericalCondition` even though none of
their characters is an ASCII decimal digit. -/
theorem claim_c10_unicode_isdigit :
    pyIsdigit "" = false ∧
    exceptIsOk (mkEthValueCriterion "" ">") = false ∧
    mkEthValueCriterion "١٢٣" ">" = .ok ⟨"١٢٣", ">"⟩ ∧
    ("١٢٣".data.all fun ch => !(('0' ≤ ch) && (ch ≤ '9'))) = true ∧
    mkEvmTypedNumericalCondition "²" "<" "amount" = .ok ⟨"²", "<", "amount"⟩ ∧
    ("²".data.all fun ch => !(('0' ≤ ch) && (ch ≤ '9'))) = true := by decide
